import Mathlib

/-!
# Proximity sensor aggregation server

A shallow embedding of `Server.cpp` (class `ProximityServer`) and the properties
of its classifier, in-memory store, persistence file, broadcaster and
per-connection handler.

Conventions of the embedding

* A `float` distance is represented by the rational number it denotes.  The
  constants `10.0`, `30.0` and `50.0` are exactly representable, so the
  comparisons of `calculateStatus` are exact on rationals.
* `std::unordered_map<std::string, json> sensor_data` is an association list with
  unique keys (`AList`); iteration order is the order of the entries.
* A `json` value is the inductive type `Json`; JSON objects are `std::map`s, that
  is, key-sorted member lists.  The text produced by `dump()` is determined by the
  value, so a payload is recorded as the value that is dumped.
* `db_file` is the text of `sensor_data.csv` on disk together with the text
  still held in the stream buffer, and the error state of the stream.  The lines
  of the file are the pieces of its text between line breaks (`textLines`).
* Everything the program obtains from outside the repository (the JSON decoder,
  numeric conversion, stream formatting of a `float`, the system clock, the
  outcome of writing to the file) is a field of `Platform`.  `stdPlatform` is a
  concrete instance used to evaluate the program on concrete inputs.
* Effects visible from outside (text reaching the file, WebSocket sends, TCP
  sends, socket close) are appended, in program order, to `ServerState.trace`.
* A received buffer is the text that `read` left in `buffer`; what the program
  prints on `std::cout` and `std::cerr` is not recorded.
* The development is sequential: it describes one handler processing one
  received buffer from start to end, and the server going through a sequence of
  such passes, subscriber events and restarts.
-/

namespace ProximitySensor

/-! ## JSON values -/

/-- A JSON value as held by `nlohmann::json`. -/
inductive Json where
  | null
  | boolean (b : Bool)
  | number (x : ℚ)
  | string (s : String)
  | array (elems : List Json)
  | object (members : List (String × Json))

namespace Json

mutual
/-- Decidable equality of JSON values. -/
def decEq : (a b : Json) → Decidable (a = b)
  | null, b => match b with
    | null => isTrue rfl
    | boolean _ => isFalse nofun
    | number _ => isFalse nofun
    | string _ => isFalse nofun
    | array _ => isFalse nofun
    | object _ => isFalse nofun
  | boolean x, b => match b with
    | null => isFalse nofun
    | boolean y => if h : x = y then isTrue (h ▸ rfl) else isFalse (fun e => h (boolean.inj e))
    | number _ => isFalse nofun
    | string _ => isFalse nofun
    | array _ => isFalse nofun
    | object _ => isFalse nofun
  | number x, b => match b with
    | null => isFalse nofun
    | boolean _ => isFalse nofun
    | number y => if h : x = y then isTrue (h ▸ rfl) else isFalse (fun e => h (number.inj e))
    | string _ => isFalse nofun
    | array _ => isFalse nofun
    | object _ => isFalse nofun
  | string x, b => match b with
    | null => isFalse nofun
    | boolean _ => isFalse nofun
    | number _ => isFalse nofun
    | string y => if h : x = y then isTrue (h ▸ rfl) else isFalse (fun e => h (string.inj e))
    | array _ => isFalse nofun
    | object _ => isFalse nofun
  | array x, b => match b with
    | null => isFalse nofun
    | boolean _ => isFalse nofun
    | number _ => isFalse nofun
    | string _ => isFalse nofun
    | array y => match decEqList x y with
      | isTrue h => isTrue (h ▸ rfl)
      | isFalse h => isFalse (fun e => h (array.inj e))
    | object _ => isFalse nofun
  | object x, b => match b with
    | null => isFalse nofun
    | boolean _ => isFalse nofun
    | number _ => isFalse nofun
    | string _ => isFalse nofun
    | array _ => isFalse nofun
    | object y => match decEqMembers x y with
      | isTrue h => isTrue (h ▸ rfl)
      | isFalse h => isFalse (fun e => h (object.inj e))
/-- Decidable equality of lists of JSON values. -/
def decEqList : (a b : List Json) → Decidable (a = b)
  | [], [] => isTrue rfl
  | [], _ :: _ => isFalse nofun
  | _ :: _, [] => isFalse nofun
  | x :: xs, y :: ys => match decEq x y, decEqList xs ys with
    | isTrue h, isTrue hs => isTrue (h ▸ hs ▸ rfl)
    | isFalse h, _ => isFalse (fun e => h (List.cons.inj e).1)
    | _, isFalse hs => isFalse (fun e => hs (List.cons.inj e).2)
/-- Decidable equality of member lists of JSON objects. -/
def decEqMembers : (a b : List (String × Json)) → Decidable (a = b)
  | [], [] => isTrue rfl
  | [], _ :: _ => isFalse nofun
  | _ :: _, [] => isFalse nofun
  | (k, x) :: xs, (l, y) :: ys =>
    if hk : k = l then
      match decEq x y, decEqMembers xs ys with
      | isTrue h, isTrue hs => isTrue (hk ▸ h ▸ hs ▸ rfl)
      | isFalse h, _ => isFalse (fun e => h (Prod.mk.inj (List.cons.inj e).1).2)
      | _, isFalse hs => isFalse (fun e => hs (List.cons.inj e).2)
    else isFalse (fun e => hk (Prod.mk.inj (List.cons.inj e).1).1)
end

instance : DecidableEq Json := decEq

/-- The member stored under `key` in a member list, if any. -/
def lookupMember (key : String) : List (String × Json) → Option Json
  | [] => none
  | (k, v) :: rest => if k = key then some v else lookupMember key rest

/-- Insertion into the key-sorted member list of a JSON object (`std::map`):
an existing member with the same key is replaced. -/
def insertMember (key : String) (value : Json) : List (String × Json) → List (String × Json)
  | [] => [(key, value)]
  | (k, v) :: rest =>
    if key < k then (key, value) :: (k, v) :: rest
    else if k = key then (key, value) :: rest
    else (k, v) :: insertMember key value rest

/-- The method `contains(key)`: true exactly for an object that has a member `key`. -/
def contains (j : Json) (key : String) : Bool :=
  match j with
  | object members => (lookupMember key members).isSome
  | _ => false

/-- The accessor `operator[](key)` read as a value; `none` stands for the
`type_error` thrown on a value that is neither an object nor null.  A missing
member reads as null. -/
def index (j : Json) (key : String) : Option Json :=
  match j with
  | object members => some ((lookupMember key members).getD null)
  | null => some null
  | _ => none

/-- The assignment `j[key] = value`: a null value becomes an object first; `none`
stands for the `type_error` thrown on any other non-object. -/
def set (j : Json) (key : String) (value : Json) : Option Json :=
  match j with
  | object members => some (object (insertMember key value members))
  | null => some (object [(key, value)])
  | _ => none

/-- Construction of an object from an initializer list of key/value pairs. -/
def ofPairs (pairs : List (String × Json)) : Json :=
  object (pairs.foldl (fun members p => insertMember p.1 p.2 members) [])

/-- Conversion to `std::string`; `none` stands for the `type_error` thrown on a
value that is not a string. -/
def getString : Json → Option String
  | string s => some s
  | _ => none

/-- Conversion to `float`, with `toFloat` the rounding of a number to single
precision.  Numbers and booleans convert; `none` stands for the `type_error`
thrown on every other value. -/
def getFloat (toFloat : ℚ → ℚ) : Json → Option ℚ
  | number x => some (toFloat x)
  | boolean b => some (if b then 1 else 0)
  | _ => none

end Json

/-! ## Reference JSON decoder

`json::parse` is library code.  The handler takes the decoder as a parameter;
`parseJson` is a reference decoder for the JSON grammar (RFC 8259) used to
evaluate the handler on concrete buffers.  It is strict in the way the library
is: the whole input must be exactly one JSON value, surrounded by optional white
space.  Input is text (a sequence of Unicode characters). -/

namespace Decoder

/-- JSON white space. -/
def isWs (c : Char) : Bool := c = ' ' || c = '\t' || c = '\n' || c = '\r'

/-- Drop leading white space. -/
def skipWs : List Char → List Char
  | [] => []
  | c :: cs => if isWs c then skipWs cs else c :: cs

/-- Value of a decimal digit. -/
def digitVal (c : Char) : Option Nat :=
  if '0' ≤ c ∧ c ≤ '9' then some (c.toNat - '0'.toNat) else none

/-- Value of a hexadecimal digit. -/
def hexVal (c : Char) : Option Nat :=
  if '0' ≤ c ∧ c ≤ '9' then some (c.toNat - '0'.toNat)
  else if 'a' ≤ c ∧ c ≤ 'f' then some (c.toNat - 'a'.toNat + 10)
  else if 'A' ≤ c ∧ c ≤ 'F' then some (c.toNat - 'A'.toNat + 10)
  else none

/-- Four hexadecimal digits of a unicode escape. -/
def hex4 : List Char → Option (Nat × List Char)
  | a :: b :: c :: d :: rest =>
    match hexVal a, hexVal b, hexVal c, hexVal d with
    | some x, some y, some z, some w => some (((x * 16 + y) * 16 + z) * 16 + w, rest)
    | _, _, _, _ => none
  | _ => none

/-- Code point denoted by a unicode escape, the input standing just after the
two characters that introduce it.  A high surrogate must be followed by an
escaped low surrogate; a lone low surrogate is an error. -/
def unicodeEscape (cs : List Char) : Option (Char × List Char) :=
  match hex4 cs with
  | none => none
  | some (hi, rest) =>
    if 0xD800 ≤ hi ∧ hi ≤ 0xDBFF then
      match rest with
      | '\\' :: 'u' :: rest2 =>
        match hex4 rest2 with
        | none => none
        | some (lo, rest3) =>
          if 0xDC00 ≤ lo ∧ lo ≤ 0xDFFF then
            some (Char.ofNat (0x10000 + (hi - 0xD800) * 0x400 + (lo - 0xDC00)), rest3)
          else none
      | _ => none
    else if 0xDC00 ≤ hi ∧ hi ≤ 0xDFFF then none
    else some (Char.ofNat hi, rest)

/-- The characters of a string after its opening quote, up to and including the
closing quote; `acc` holds the decoded characters in reverse. -/
def stringBody : Nat → List Char → List Char → Option (String × List Char)
  | 0, _, _ => none
  | _ + 1, [], _ => none
  | n + 1, c :: cs, acc =>
    if c = '"' then some (String.mk acc.reverse, cs)
    else if c = '\\' then
      match cs with
      | [] => none
      | e :: rest =>
        if e = '"' then stringBody n rest ('"' :: acc)
        else if e = '\\' then stringBody n rest ('\\' :: acc)
        else if e = '/' then stringBody n rest ('/' :: acc)
        else if e = 'b' then stringBody n rest (Char.ofNat 8 :: acc)
        else if e = 'f' then stringBody n rest (Char.ofNat 12 :: acc)
        else if e = 'n' then stringBody n rest ('\n' :: acc)
        else if e = 'r' then stringBody n rest ('\r' :: acc)
        else if e = 't' then stringBody n rest ('\t' :: acc)
        else if e = 'u' then
          match unicodeEscape rest with
          | none => none
          | some (ch, rest2) => stringBody n rest2 (ch :: acc)
        else none
    else if c.toNat < 0x20 then none
    else stringBody n cs (c :: acc)

/-- A maximal run of decimal digits: their value as a numeral continuing `acc`,
how many there are, and the remaining input. -/
def digits : List Char → Nat → Nat → Nat × Nat × List Char
  | [], acc, cnt => (acc, cnt, [])
  | c :: cs, acc, cnt =>
    match digitVal c with
    | some d => digits cs (acc * 10 + d) (cnt + 1)
    | none => (acc, cnt, c :: cs)

/-- The integer part of a number: a single zero, or a non-empty run of digits
that does not start with zero. -/
def intPart : List Char → Option (Nat × List Char)
  | [] => none
  | c :: cs =>
    if c = '0' then some (0, cs)
    else
      match digits (c :: cs) 0 0 with
      | (_, 0, _) => none
      | (v, _, rest) => some (v, rest)

/-- The optional fraction: the mantissa extended by the fraction digits and the
number of fraction digits.  A point must be followed by a digit. -/
def fracPart (mant : Nat) : List Char → Option (Nat × Nat × List Char)
  | '.' :: cs =>
    match digits cs mant 0 with
    | (_, 0, _) => none
    | (v, k, rest) => some (v, k, rest)
  | cs => some (mant, 0, cs)

/-- The optional exponent.  The exponent mark must be followed by an optional
sign and at least one digit. -/
def expPart : List Char → Option (Int × List Char)
  | [] => some (0, [])
  | c :: cs =>
    if c = 'e' ∨ c = 'E' then
      match cs with
      | '+' :: ds =>
        match digits ds 0 0 with
        | (_, 0, _) => none
        | (v, _, rest) => some ((v : Int), rest)
      | '-' :: ds =>
        match digits ds 0 0 with
        | (_, 0, _) => none
        | (v, _, rest) => some (-(v : Int), rest)
      | ds =>
        match digits ds 0 0 with
        | (_, 0, _) => none
        | (v, _, rest) => some ((v : Int), rest)
    else some (0, c :: cs)

/-- The rational `sign * mant * 10 ^ e`. -/
def decimal (neg : Bool) (mant : Nat) (e : Int) : ℚ :=
  mkRat ((if neg then -1 else 1) * (mant : Int) * 10 ^ e.toNat) (10 ^ (-e).toNat)

/-- Magnitudes from this bound on do not round to a finite double; the library
rejects such a number with an `out_of_range` exception. -/
def doubleLimit : ℚ := mkRat (2 ^ 1024 - 2 ^ 970) 1

/-- A JSON number. -/
def number (cs : List Char) : Option (Json × List Char) :=
  let (neg, cs1) := match cs with
    | '-' :: rest => (true, rest)
    | _ => (false, cs)
  match intPart cs1 with
  | none => none
  | some (i, cs2) =>
    match fracPart i cs2 with
    | none => none
    | some (mant, k, cs3) =>
      match expPart cs3 with
      | none => none
      | some (e, cs4) =>
        let x := decimal neg mant (e - k)
        if doubleLimit ≤ |x| then none else some (Json.number x, cs4)

mutual
/-- One JSON value, preceded by optional white space; the fuel bounds the number
of nested and successive values. -/
def value : Nat → List Char → Option (Json × List Char)
  | 0, _ => none
  | n + 1, cs =>
    match skipWs cs with
    | [] => none
    | c :: rest =>
      if c = '{' then
        match skipWs rest with
        | '}' :: rest2 => some (Json.object [], rest2)
        | rest2 => members n rest2 []
      else if c = '[' then
        match skipWs rest with
        | ']' :: rest2 => some (Json.array [], rest2)
        | _ => elements n rest []
      else if c = '"' then
        match stringBody (n + 1) rest [] with
        | none => none
        | some (s, rest2) => some (Json.string s, rest2)
      else
        match c :: rest with
        | 't' :: 'r' :: 'u' :: 'e' :: rest2 => some (Json.boolean true, rest2)
        | 'f' :: 'a' :: 'l' :: 's' :: 'e' :: rest2 => some (Json.boolean false, rest2)
        | 'n' :: 'u' :: 'l' :: 'l' :: rest2 => some (Json.null, rest2)
        | cs2 => number cs2
/-- The elements of an array after its opening bracket, up to and including the
closing bracket; `acc` holds the elements read so far in reverse. -/
def elements : Nat → List Char → List Json → Option (Json × List Char)
  | 0, _, _ => none
  | n + 1, cs, acc =>
    match value n cs with
    | none => none
    | some (v, rest) =>
      match skipWs rest with
      | ',' :: rest2 => elements n rest2 (v :: acc)
      | ']' :: rest2 => some (Json.array (v :: acc).reverse, rest2)
      | _ => none
/-- The members of an object after its opening brace, up to and including the
closing brace; `acc` holds the members read so far.  A repeated key keeps the
last value. -/
def members : Nat → List Char → List (String × Json) → Option (Json × List Char)
  | 0, _, _ => none
  | n + 1, cs, acc =>
    match skipWs cs with
    | '"' :: rest =>
      match stringBody (n + 1) rest [] with
      | none => none
      | some (key, rest2) =>
        match skipWs rest2 with
        | ':' :: rest3 =>
          match value n rest3 with
          | none => none
          | some (v, rest4) =>
            match skipWs rest4 with
            | ',' :: rest5 => members n rest5 (Json.insertMember key v acc)
            | '}' :: rest5 => some (Json.object (Json.insertMember key v acc), rest5)
            | _ => none
        | _ => none
    | _ => none
end

end Decoder

/-- Reference decoder: the whole text must be one JSON value; `none` stands for
the exception thrown on any other input. -/
def parseJson (text : String) : Option Json :=
  match Decoder.value (text.length + 1) text.data with
  | none => none
  | some (v, rest) => if Decoder.skipWs rest = [] then some v else none

/-! ## Platform -/

/-- What the program obtains from outside the repository. -/
structure Platform where
  /-- The call `json::parse(buffer)`; `none` stands for a thrown exception. -/
  parse : String → Option Json
  /-- Rounding of a JSON number to `float`. -/
  toFloat : ℚ → ℚ
  /-- Text written by `stream << distance` for a `float`. -/
  showFloat : ℚ → String
  /-- The local time, formatted `%Y-%m-%d %H:%M:%S`, returned by the `n`-th
  reading of the system clock. -/
  now : Nat → String
  /-- Outcome of the `n`-th attempt of the process to write the text held in the
  stream buffer of `db_file` to the file: `none` when all of it reaches the disk,
  `some k` when the write fails after `k` characters. -/
  diskFails : Nat → Option Nat

/-- Round to the nearest integer, ties to even. -/
def roundHalfEven (x : ℚ) : ℤ :=
  let f := ⌊x⌋
  let r := x - f
  if r < 1 / 2 then f else if 1 / 2 < r then f + 1 else if f % 2 = 0 then f else f + 1

/-- Round-to-nearest single precision value of a rational (IEEE 754 binary32,
24 significant bits, smallest exponent -126).  Magnitudes beyond the largest
finite `float` are not clamped. -/
def roundBinary32 (x : ℚ) : ℚ :=
  if x = 0 then 0
  else
    let e : ℤ := max (Int.log 2 |x|) (-126)
    let ulp : ℚ := 2 ^ (e - 23)
    let n : ℤ := roundHalfEven (|x| / ulp)
    (if x < 0 then -1 else 1) * n * ulp

/-- Remove trailing zeros from a digit string. -/
def stripZeros (ds : List Char) : List Char :=
  (ds.reverse.dropWhile (fun c => c = '0')).reverse

/-- Text of a stream insertion of a `float` with the default format flags:
six significant digits, trailing zeros removed, scientific notation when the
decimal exponent is below -4 or at least 6. -/
def ostreamFloat (x : ℚ) : String :=
  if x = 0 then "0"
  else
    let a := |x|
    let e0 : ℤ := Int.log 10 a
    let n0 : ℤ := roundHalfEven (a / 10 ^ (e0 - 5))
    let n : ℤ := if n0 = 10 ^ 6 then 10 ^ 5 else n0
    let e : ℤ := if n0 = 10 ^ 6 then e0 + 1 else e0
    let ds := Nat.toDigits 10 n.toNat
    let sign := if x < 0 then "-" else ""
    if e < -4 ∨ 6 ≤ e then
      let frac := stripZeros ds.tail
      let mant := ds.take 1 ++ (if frac = [] then [] else '.' :: frac)
      let ex := Nat.toDigits 10 e.natAbs
      let ex2 := if ex.length < 2 then '0' :: ex else ex
      sign ++ String.mk mant ++ "e" ++ (if e < 0 then "-" else "+") ++ String.mk ex2
    else if 0 ≤ e then
      let frac := stripZeros (ds.drop (e.toNat + 1))
      sign ++ String.mk (ds.take (e.toNat + 1) ++ (if frac = [] then [] else '.' :: frac))
    else
      sign ++ "0." ++ String.mk (stripZeros (List.replicate ((-e).toNat - 1) '0' ++ ds))

/-- A clock that advances by one second at every reading. -/
def tickingClock (n : Nat) : String :=
  "2025-06-01 12:00:" ++ String.mk (Nat.toDigits 10 (n % 60 / 10)) ++
    String.mk (Nat.toDigits 10 (n % 10))

/-- A concrete platform: the reference decoder, rounding to single precision,
default stream formatting, a clock that ticks at every reading and a disk on
which every write succeeds. -/
def stdPlatform : Platform where
  parse := parseJson
  toFloat := roundBinary32
  showFloat := ostreamFloat
  now := tickingClock
  diskFails := fun _ => none

/-- The standard platform with a disk on which every write fails before its
first character. -/
def fullDiskPlatform : Platform :=
  { stdPlatform with diskFails := fun _ => some 0 }

/-- The standard platform with a disk on which every write fails after seven
characters. -/
def shortDiskPlatform : Platform :=
  { stdPlatform with diskFails := fun _ => some 7 }

/-! ## Server state -/

/-- An effect visible from outside the process. -/
inductive Event where
  /-- Text that reaches `sensor_data.csv` by a flush of `db_file`. -/
  | dbFlush (text : String)
  /-- A WebSocket send of a dumped JSON value to a connection. -/
  | wsSend (connection : Nat) (payload : Json)
  /-- A TCP send on a client socket. -/
  | tcpSend (socket : Nat) (bytes : String)
  /-- The call `close(client_socket)`. -/
  | tcpClose (socket : Nat)
  deriving DecidableEq

/-- The members of `ProximityServer` and its environment. -/
structure ServerState where
  /-- The map `sensor_data`. -/
  sensor_data : AList (fun _ : String => Json)
  /-- Whether `db_file.is_open()`. -/
  db_open : Bool
  /-- Whether no error flag is set on `db_file`. -/
  db_good : Bool
  /-- The text of `sensor_data.csv` on disk. -/
  db_disk : String
  /-- The text written to `db_file` and not yet on disk. -/
  db_buffer : String
  /-- Number of attempts so far to write the stream buffer to the file. -/
  db_writes : Nat
  /-- The connections of the WebSocket endpoint. -/
  connections : List Nat
  /-- Number of readings of the system clock so far. -/
  clock : Nat
  /-- The effects so far, oldest first. -/
  trace : List Event

/-- The header line of the persistence file, with its line break. -/
def header : String := "timestamp,sensor_id,distance,status\n"

/-- The constructor `ProximityServer()`, started on a persistence file with
text `disk`; `openOk` tells whether opening the file in append mode succeeds.
The header is written (to the stream buffer) only when the file is empty. -/
def ProximityServer (openOk : Bool) (disk : String) : ServerState where
  sensor_data := ∅
  db_open := openOk
  db_good := openOk
  db_disk := disk
  db_buffer := if openOk ∧ disk = "" then header else ""
  db_writes := 0
  connections := []
  clock := 0
  trace := []

/-- The function `getCurrentTimestamp`: one reading of the system clock. -/
def getCurrentTimestamp (P : Platform) (s : ServerState) : String × ServerState :=
  (P.now s.clock, { s with clock := s.clock + 1 })

/-- The function `calculateStatus`. -/
def calculateStatus (distance : ℚ) : String :=
  if distance < 10 then "CRITICAL"
  else if distance < 30 then "WARNING"
  else if distance < 50 then "CAUTION"
  else "SAFE"

/-- The four fields of a record, separated by commas, as `storeInDatabase`
inserts them; the sensor identifier is inserted as it is. -/
def dbRecord (timestamp sensor_id distance status : String) : String :=
  timestamp ++ "," ++ sensor_id ++ "," ++ distance ++ "," ++ status

/-- The text inserted by `storeInDatabase`: the record and a line break. -/
def dbLine (timestamp sensor_id distance status : String) : String :=
  dbRecord timestamp sensor_id distance status ++ "\n"

/-- The stream buffer of `db_file` is written to the file.  When the write fails
the characters written before the failure stay on disk, the rest stays in the
buffer and the error flag of the stream is set. -/
def writeOut (P : Platform) (s : ServerState) : ServerState :=
  match P.diskFails s.db_writes with
  | none =>
    { s with
      db_disk := s.db_disk ++ s.db_buffer
      db_buffer := ""
      db_writes := s.db_writes + 1
      trace := s.trace ++ [Event.dbFlush s.db_buffer] }
  | some k =>
    { s with
      db_good := false
      db_disk := s.db_disk ++ s.db_buffer.take k
      db_buffer := s.db_buffer.drop k
      db_writes := s.db_writes + 1
      trace := s.trace ++ [Event.dbFlush (s.db_buffer.take k)] }

/-- The function `storeInDatabase`.  When the file is open the clock is read;
a stream without error takes the record stamped with that reading and is
flushed, a stream with its error flag set ignores both the insertion and the
flush (as the C++ standard specifies for output on a stream that is not good).
The function does not look at the state of the stream afterwards. -/
def storeInDatabase (P : Platform) (sensor_id : String) (distance : ℚ) (status : String)
    (s : ServerState) : ServerState :=
  if s.db_open then
    let (timestamp, s1) := getCurrentTimestamp P s
    if s1.db_good then
      writeOut P { s1 with
        db_buffer := s1.db_buffer ++ dbLine timestamp sensor_id (P.showFloat distance) status }
    else s1
  else s

/-- The value `data` built by `broadcastSensorData`: starting from a
default-constructed (null) value, every entry of the map is assigned under its
key. -/
def snapshotJson (sensor_data : AList (fun _ : String => Json)) : Option Json :=
  sensor_data.entries.foldlM (fun data e => Json.set data e.1 e.2) Json.null

/-- The function `broadcastSensorData`: the dumped value is sent to every
connection of the endpoint. -/
def broadcastSensorData (s : ServerState) : ServerState :=
  match snapshotJson s.sensor_data with
  | none => s
  | some data =>
    { s with trace := s.trace ++ s.connections.map (fun c => Event.wsSend c data) }

/-- The value assigned to `sensor_data[sensor_id]` by `handleClient`. -/
def sensorInfo (distance : ℚ) (status timestamp : String) : Json :=
  Json.ofPairs
    [("distance", Json.number distance), ("status", Json.string status),
     ("timestamp", Json.string timestamp), ("address", Json.string "")]

/-- A reading as it is put into the map: the key and the three values. -/
structure Reading where
  /-- The key. -/
  sensor_id : String
  /-- The distance. -/
  distance : ℚ
  /-- The status. -/
  status : String
  /-- The timestamp. -/
  timestamp : String

/-- The assignment `sensor_data[sensor_id] = ...` of `handleClient` (the block
commented "Store data"). -/
def storeData (sensor_data : AList (fun _ : String => Json)) (r : Reading) :
    AList (fun _ : String => Json) :=
  sensor_data.insert r.sensor_id (sensorInfo r.distance r.status r.timestamp)

/-- The body of the `if` in `handleClient` for a message with both fields: update
the map, store in the database, broadcast, acknowledge. -/
def acceptReading (P : Platform) (client_socket : Nat) (sensor_id : String) (distance : ℚ)
    (s : ServerState) : ServerState :=
  let status := calculateStatus distance
  let (timestamp, s1) := getCurrentTimestamp P s
  let s2 := { s1 with
    sensor_data := storeData s1.sensor_data ⟨sensor_id, distance, status, timestamp⟩ }
  let s3 := storeInDatabase P sensor_id distance status s2
  let s4 := broadcastSensorData s3
  { s4 with trace := s4.trace ++ [Event.tcpSend client_socket "ACK"] }

/-- One pass through the `try` block of `handleClient` on a received buffer.  An
exception (from the decoder or from a conversion) is caught and leaves the state
as it is. -/
def handleBuffer (P : Platform) (client_socket : Nat) (buffer : String)
    (s : ServerState) : ServerState :=
  match P.parse buffer with
  | none => s
  | some data =>
    if data.contains "sensor_id" ∧ data.contains "distance" then
      match (data.index "sensor_id").bind Json.getString with
      | none => s
      | some sensor_id =>
        match (data.index "distance").bind (Json.getFloat P.toFloat) with
        | none => s
        | some distance => acceptReading P client_socket sensor_id distance s
    else s

/-- The result of one call of `read` on the client socket. -/
inductive Recv where
  /-- A positive return value: the text now in `buffer` (the received bytes, read
  as a C string). -/
  | data (buffer : String)
  /-- A return value of zero or less: disconnect or error. -/
  | closed

/-- The function `handleClient` run on the successive results of `read`.  The
loop ends, and the socket is closed, at the first result that is not positive;
when the results run out the handler is waiting in `read`. -/
def handleClient (P : Platform) (client_socket : Nat) : List Recv → ServerState → ServerState
  | [], s => s
  | Recv.closed :: _, s => { s with trace := s.trace ++ [Event.tcpClose client_socket] }
  | Recv.data buffer :: rest, s =>
    handleClient P client_socket rest (handleBuffer P client_socket buffer s)

/-- The handler `on_open` of the WebSocket endpoint. -/
def on_open (s : ServerState) : ServerState := broadcastSensorData s

/-- The handler `on_message` of the WebSocket endpoint. -/
def on_message (s : ServerState) : ServerState := broadcastSensorData s

/-- A subscriber connects: the endpoint registers the connection and then calls
the `on_open` handler. -/
def wsConnect (connection : Nat) (s : ServerState) : ServerState :=
  on_open { s with connections := s.connections ++ [connection] }

/-! ## Lines of text -/

/-- The lines of a text: the pieces between line breaks, `cur` holding in reverse
the characters of the line being read.  Text after the last line break, if any,
is a last line. -/
def splitLines (cur : List Char) : List Char → List (List Char)
  | [] => if cur = [] then [] else [cur.reverse]
  | c :: cs => if c = '\n' then cur.reverse :: splitLines [] cs else splitLines (c :: cur) cs

/-- The lines of a text file. -/
def textLines (text : String) : List String :=
  (splitLines [] text.data).map String.mk

/-- A text without a line break. -/
def NoNewline (text : String) : Prop := '\n' ∉ text.data

instance (text : String) : Decidable (NoNewline text) :=
  inferInstanceAs (Decidable ('\n' ∉ text.data))

/-- The header line without its line break. -/
def headerLine : String := "timestamp,sensor_id,distance,status"

/-- The text of a file made of the given lines, each ended by a line break. -/
def unlines : List String → String
  | [] => ""
  | l :: ls => l ++ "\n" ++ unlines ls

/-! ## Auxiliary definitions used in the statements -/

/-- The member list obtained by assigning all entries of the map, in order, into
an object that starts with the members `ms`. -/
def assignAll (entries : List (Sigma fun _ : String => Json)) (ms : List (String × Json)) :
    List (String × Json) :=
  entries.foldl (fun acc e => Json.insertMember e.1 e.2 acc) ms

/-- The reading put into the map for a message with key `sensor_id` and distance
`distance`, handled in state `s`: its timestamp is the clock reading taken by
`handleClient`. -/
def readingOf (P : Platform) (sensor_id : String) (distance : ℚ) (s : ServerState) : Reading :=
  ⟨sensor_id, distance, calculateStatus distance, P.now s.clock⟩

/-- The text inserted for that message: its timestamp is the next clock reading,
taken by `storeInDatabase`. -/
def recordOf (P : Platform) (sensor_id : String) (distance : ℚ) (s : ServerState) : String :=
  dbLine (P.now (s.clock + 1)) sensor_id (P.showFloat distance) (calculateStatus distance)

/-- The value broadcast for a map. -/
def payloadOf (sd : AList (fun _ : String => Json)) : Json :=
  if sd.entries = [] then Json.null else Json.object (assignAll sd.entries [])

/-- The sensor identifier and distance that `handleClient` reads from a buffer it
accepts; `none` when the buffer is discarded. -/
def decode (P : Platform) (buffer : String) : Option (String × ℚ) :=
  match P.parse buffer with
  | none => none
  | some data =>
    if data.contains "sensor_id" ∧ data.contains "distance" then
      match (data.index "sensor_id").bind Json.getString,
        (data.index "distance").bind (Json.getFloat P.toFloat) with
      | some sensor_id, some distance => some (sensor_id, distance)
      | _, _ => none
    else none

/-- The WebSocket sends of a trace, oldest first. -/
def wsSends : List Event → List (Nat × Json)
  | [] => []
  | Event.wsSend c payload :: rest => (c, payload) :: wsSends rest
  | _ :: rest => wsSends rest

/-- The buffers received before the first result of `read` that is not positive. -/
def received : List Recv → List String
  | [] => []
  | Recv.closed :: _ => []
  | Recv.data buffer :: rest => buffer :: received rest

/-! ## Example inputs -/

/-- Sensor s1 reports distance 5.0. -/
def msgS1 : String := "\x7b\"sensor_id\":\"s1\",\"distance\":5.0\x7d"

/-- Sensor s2 reports distance 60. -/
def msgS2 : String := "\x7b\"sensor_id\":\"s2\",\"distance\":60\x7d"

/-- Sensor s1 reports distance 5.0 and carries its own timestamp, as the sensor
client of the repository does. -/
def msgS1Stamped : String :=
  "\x7b\"sensor_id\":\"s1\",\"distance\":5.0,\"timestamp\":\"2024-01-01 00:00:00\"\x7d"

/-- The first part of the message of sensor s1, cut after twenty characters. -/
def msgS1Head : String := "\x7b\"sensor_id\":\"s1\",\"d"

/-- The rest of the message of sensor s1. -/
def msgS1Tail : String := "istance\":5.0\x7d"

/-- A sensor identifier that contains the header line between two line breaks. -/
def headerId : String := "A\ntimestamp,sensor_id,distance,status\nB"

/-- A valid message with the sensor identifier `headerId` (the line breaks are
escaped in the JSON text) and distance 5.0. -/
def msgHeaderId : String :=
  "\x7b\"sensor_id\":\"A\\ntimestamp,sensor_id,distance,status\\nB\",\"distance\":5.0\x7d"

/-! ## The persistence file across restarts -/

/-- Something that happens to the server process. -/
inductive Step where
  /-- A connection handler takes a received buffer through `handleClient`. -/
  | recv (client_socket : Nat) (buffer : String)
  /-- A subscriber connects. -/
  | wsOpen (connection : Nat)
  /-- A subscriber sends a message. -/
  | wsMessage
  /-- The process ends and a new one is constructed on the same file.  With
  `clean` the destructor closes `db_file`, which writes out the stream buffer;
  without it the buffer is lost.  `openOk` tells whether the new process can open
  the file. -/
  | restart (clean openOk : Bool)

/-- Whether a step leaves the server with an open persistence file, as far as
the step decides it. -/
def Step.opens : Step → Bool
  | Step.restart _ openOk => openOk
  | _ => true

/-- The effect of a step. -/
def step (P : Platform) : Step → ServerState → ServerState
  | Step.recv client_socket buffer, s => handleBuffer P client_socket buffer s
  | Step.wsOpen connection, s => wsConnect connection s
  | Step.wsMessage, s => on_message s
  | Step.restart clean openOk, s =>
    ProximityServer openOk (if clean ∧ s.db_open then (writeOut P s).db_disk else s.db_disk)

/-- The effect of a sequence of steps. -/
def run (P : Platform) (steps : List Step) (s : ServerState) : ServerState :=
  steps.foldl (fun st a => step P a st) s

/-- The persistence file of a server that could open it and has seen no write
fail: either nothing is on disk yet and the header waits in the stream buffer, or
the buffer is empty and the disk holds the header line followed by whole lines
that are not the header. -/
def DbInv (s : ServerState) : Prop :=
  s.db_open = true ∧ s.db_good = true ∧
    ((s.db_disk = "" ∧ s.db_buffer = header) ∨
      (s.db_buffer = "" ∧ ∃ records : List String,
        (∀ r ∈ records, NoNewline r ∧ r ≠ headerLine) ∧
        s.db_disk = header ++ unlines records))

/-! # Properties -/

/-! ## Classifier -/

/-- C1: for every distance `d`, `calculateStatus d` is CRITICAL exactly when
`d < 10`, WARNING exactly when `10 ≤ d < 30`, CAUTION exactly when `30 ≤ d < 50`
and SAFE exactly when `50 ≤ d`; one of the four cases always applies and, the
four results being different, no two apply together.  The boundary values
9.99, 10, 29.99, 30, 49.99 and 50 (taken exactly, and rounded to single
precision) are classified CRITICAL, WARNING, WARNING, CAUTION, CAUTION, SAFE. -/
theorem calculateStatus_tiers (d : ℚ) :
    (calculateStatus d = "CRITICAL" ↔ d < 10) ∧
    (calculateStatus d = "WARNING" ↔ 10 ≤ d ∧ d < 30) ∧
    (calculateStatus d = "CAUTION" ↔ 30 ≤ d ∧ d < 50) ∧
    (calculateStatus d = "SAFE" ↔ 50 ≤ d) ∧
    (d < 10 ∨ (10 ≤ d ∧ d < 30) ∨ (30 ≤ d ∧ d < 50) ∨ 50 ≤ d) ∧
    ¬ (d < 10 ∧ 10 ≤ d) ∧ ¬ (d < 30 ∧ 30 ≤ d) ∧ ¬ (d < 50 ∧ 50 ≤ d) ∧
    calculateStatus (999 / 100) = "CRITICAL" ∧
    calculateStatus 10 = "WARNING" ∧
    calculateStatus (2999 / 100) = "WARNING" ∧
    calculateStatus 30 = "CAUTION" ∧
    calculateStatus (4999 / 100) = "CAUTION" ∧
    calculateStatus 50 = "SAFE" ∧
    calculateStatus (roundBinary32 (999 / 100)) = "CRITICAL" ∧
    calculateStatus (roundBinary32 (2999 / 100)) = "WARNING" ∧
    calculateStatus (roundBinary32 (4999 / 100)) = "CAUTION" := by
  have hd : ∀ x : ℚ, (calculateStatus x = "CRITICAL" ↔ x < 10) ∧
      (calculateStatus x = "WARNING" ↔ 10 ≤ x ∧ x < 30) ∧
      (calculateStatus x = "CAUTION" ↔ 30 ≤ x ∧ x < 50) ∧
      (calculateStatus x = "SAFE" ↔ 50 ≤ x) := by
    intro x
    unfold calculateStatus
    by_cases h1 : x < 10
    · have h2 : ¬ 10 ≤ x := not_le.mpr h1
      have h3 : ¬ 30 ≤ x := fun h => h2 (le_trans (by norm_num) h)
      have h4 : ¬ 50 ≤ x := fun h => h2 (le_trans (by norm_num) h)
      simp [h1, h2, h3, h4]
    · have h1' : 10 ≤ x := not_lt.mp h1
      by_cases h2 : x < 30
      · have h3 : ¬ 30 ≤ x := not_le.mpr h2
        have h4 : ¬ 50 ≤ x := fun h => h3 (le_trans (by norm_num) h)
        simp [h1, h1', h2, h3, h4]
      · have h2' : 30 ≤ x := not_lt.mp h2
        by_cases h3 : x < 50
        · have h4 : ¬ 50 ≤ x := not_le.mpr h3
          simp [h1, h1', h2, h2', h3, h4]
        · have h3' : 50 ≤ x := not_lt.mp h3
          simp [h1, h1', h2, h2', h3, h3']
  refine ⟨(hd d).1, (hd d).2.1, (hd d).2.2.1, (hd d).2.2.2, ?_, ?_, ?_, ?_,
    ((hd _).1).2 (by norm_num), ((hd _).2.1).2 (by norm_num), ((hd _).2.1).2 (by norm_num),
    ((hd _).2.2.1).2 (by norm_num), ((hd _).2.2.1).2 (by norm_num), ((hd _).2.2.2).2 (by norm_num),
    by decide!, by decide!, by decide!⟩
  · rcases lt_or_le d 10 with h | h
    · exact Or.inl h
    · rcases lt_or_le d 30 with h2 | h2
      · exact Or.inr (Or.inl ⟨h, h2⟩)
      · rcases lt_or_le d 50 with h3 | h3
        · exact Or.inr (Or.inr (Or.inl ⟨h2, h3⟩))
        · exact Or.inr (Or.inr (Or.inr h3))
  · exact fun h => absurd h.2 (not_le.mpr h.1)
  · exact fun h => absurd h.2 (not_le.mpr h.1)
  · exact fun h => absurd h.2 (not_le.mpr h.1)

/-! ## The in-memory store -/

/-- The stored object, with its members in key order. -/
theorem sensorInfo_eq (d : ℚ) (st ts : String) :
    sensorInfo d st ts =
      Json.object [("address", Json.string ""), ("distance", Json.number d),
        ("status", Json.string st), ("timestamp", Json.string ts)] := by
  have h1 : ("status" : String) < "distance" ↔ False := by decide!
  have h2 : ("timestamp" : String) < "distance" ↔ False := by decide!
  have h3 : ("timestamp" : String) < "status" ↔ False := by decide!
  have h4 : ("address" : String) < "distance" ↔ True := by decide!
  have h5 : ("distance" : String) = "status" ↔ False := by decide
  have h6 : ("distance" : String) = "timestamp" ↔ False := by decide
  have h7 : ("status" : String) = "timestamp" ↔ False := by decide
  simp only [sensorInfo, Json.ofPairs, List.foldl, Json.insertMember, h1, h2, h3, h4, h5, h6, h7,
    if_true, if_false]

/-- The stored object determines the three values of the reading. -/
theorem sensorInfo_inj {d d' : ℚ} {st st' ts ts' : String}
    (h : sensorInfo d st ts = sensorInfo d' st' ts') : d = d' ∧ st = st' ∧ ts = ts' := by
  rw [sensorInfo_eq, sensorInfo_eq] at h
  simp only [Json.object.injEq, List.cons.injEq, Prod.mk.injEq, Json.number.injEq,
    Json.string.injEq, true_and, and_true] at h
  exact h

/-- The entry under the key of the reading just stored is that reading. -/
theorem lookup_storeData_self (m : AList (fun _ : String => Json)) (r : Reading) :
    (storeData m r).lookup r.sensor_id = some (sensorInfo r.distance r.status r.timestamp) := by
  simp [storeData]

/-- Storing a reading leaves the entries under other keys as they are. -/
theorem lookup_storeData_ne (m : AList (fun _ : String => Json)) (r : Reading) {id : String}
    (h : id ≠ r.sensor_id) : (storeData m r).lookup id = m.lookup id := by
  simp [storeData, AList.lookup_insert_ne h]

/-- The entry of a key after a sequence of readings is the last reading with that
key, or the former entry when there is none. -/
theorem lookup_foldl_storeData (rs : List Reading) (m : AList (fun _ : String => Json))
    (id : String) :
    (rs.foldl storeData m).lookup id =
      match rs.reverse.find? (fun r => r.sensor_id = id) with
      | some r => some (sensorInfo r.distance r.status r.timestamp)
      | none => m.lookup id := by
  induction rs using List.reverseRecOn with
  | nil => simp
  | append_singleton rs r ih =>
    rw [List.foldl_append, List.reverse_append]
    simp only [List.foldl_cons, List.foldl_nil, List.reverse_cons, List.reverse_nil,
      List.nil_append, List.singleton_append]
    by_cases h : r.sensor_id = id
    · subst h
      simp [List.find?_cons, lookup_storeData_self]
    · rw [lookup_storeData_ne _ _ (Ne.symm h), ih]
      simp [List.find?_cons, h]

/-- The keys after a sequence of readings are the former keys and the keys of the
readings. -/
theorem mem_foldl_storeData (rs : List Reading) (m : AList (fun _ : String => Json))
    (id : String) :
    id ∈ rs.foldl storeData m ↔ id ∈ m ∨ id ∈ rs.map Reading.sensor_id := by
  induction rs generalizing m with
  | nil => simp
  | cons r rs ih =>
    rw [List.foldl_cons, ih]
    simp only [storeData, AList.mem_insert, List.map_cons, List.mem_cons]
    tauto

/-! ## The broadcast value -/

/-- Looking up a key after an insertion into a member list. -/
theorem lookupMember_insertMember (k key : String) (v : Json) (ms : List (String × Json)) :
    Json.lookupMember k (Json.insertMember key v ms) =
      if key = k then some v else Json.lookupMember k ms := by
  induction ms with
  | nil => simp [Json.insertMember, Json.lookupMember]
  | cons p ms ih =>
    obtain ⟨k', v'⟩ := p
    unfold Json.insertMember
    by_cases h1 : key < k'
    · simp [h1, Json.lookupMember]
    · by_cases h2 : k' = key
      · subst h2
        by_cases h3 : k' = k <;> simp [h1, h3, Json.lookupMember]
      · by_cases h3 : k' = k
        · subst h3
          simp [h1, h2, Json.lookupMember, Ne.symm h2]
        · simp [h1, h2, h3, Json.lookupMember, ih]

/-- Assigning the entries into a value that is already an object never throws. -/
theorem foldlM_set_object (entries : List (Sigma fun _ : String => Json))
    (ms : List (String × Json)) :
    entries.foldlM (fun data e => Json.set data e.1 e.2) (Json.object ms) =
      some (Json.object (assignAll entries ms)) := by
  induction entries generalizing ms with
  | nil => simp [assignAll]
  | cons e es ih =>
    have h : Json.set (Json.object ms) e.1 e.2 =
        some (Json.object (Json.insertMember e.1 e.2 ms)) := rfl
    rw [List.foldlM_cons, h]
    simp only [Option.bind_eq_bind, Option.some_bind, pure_bind]
    rw [ih]
    rfl

/-- The value built by `broadcastSensorData`: null for an empty map, otherwise
the object holding every entry. -/
theorem snapshotJson_eq (sd : AList (fun _ : String => Json)) :
    snapshotJson sd =
      some (if sd.entries = [] then Json.null else Json.object (assignAll sd.entries [])) := by
  unfold snapshotJson
  cases h : sd.entries with
  | nil => simp
  | cons e es =>
    have h0 : Json.set Json.null e.1 e.2 = some (Json.object [(e.1, e.2)]) := rfl
    rw [List.foldlM_cons, h0]
    simp only [Option.bind_eq_bind, Option.some_bind, pure_bind]
    rw [foldlM_set_object]
    simp [assignAll, Json.insertMember]

/-- Looking up a key after assigning entries with distinct keys. -/
theorem lookupMember_assignAll (entries : List (Sigma fun _ : String => Json))
    (hn : entries.NodupKeys) (ms : List (String × Json)) (k : String) :
    Json.lookupMember k (assignAll entries ms) =
      match entries.dlookup k with
      | some v => some v
      | none => Json.lookupMember k ms := by
  induction entries generalizing ms with
  | nil => simp [assignAll]
  | cons e es ih =>
    obtain ⟨k', v'⟩ := e
    have hn' := List.nodupKeys_cons.mp hn
    have h := ih hn'.2 (Json.insertMember k' v' ms)
    simp only [assignAll, List.foldl_cons] at h ⊢
    rw [h, lookupMember_insertMember]
    by_cases hk : k' = k
    · subst hk
      have : es.dlookup k' = none := List.dlookup_eq_none.mpr hn'.1
      simp [this, List.dlookup_cons_eq]
    · rw [List.dlookup_cons_ne _ _ (Ne.symm hk)]
      simp [hk]

/-- The members of the broadcast object are the entries of the map. -/
theorem lookupMember_snapshot (sd : AList (fun _ : String => Json)) (k : String) :
    Json.lookupMember k (assignAll sd.entries []) = sd.lookup k := by
  rw [lookupMember_assignAll _ sd.nodupKeys]
  unfold AList.lookup
  cases List.dlookup k sd.entries <;> simp [Json.lookupMember]

/-! ## Lines of text: lemmas -/

theorem splitLines_append_line (l : List Char) (hl : '\n' ∉ l) (cur rest : List Char) :
    splitLines cur (l ++ '\n' :: rest) = (cur.reverse ++ l) :: splitLines [] rest := by
  induction l generalizing cur with
  | nil => simp [splitLines]
  | cons c l ih =>
    have hc : c ≠ '\n' := fun e => hl (by simp [e])
    have hl' : '\n' ∉ l := fun e => hl (List.mem_cons_of_mem c e)
    simp [splitLines, hc, ih hl' (c :: cur)]

theorem textLines_empty : textLines "" = [] := by
  simp [textLines, splitLines]

theorem textLines_line_append (r t : String) (hr : NoNewline r) :
    textLines (r ++ "\n" ++ t) = r :: textLines t := by
  unfold textLines
  have h : (r ++ "\n" ++ t).data = r.data ++ '\n' :: t.data := by
    simp [String.data_append]
  rw [h, splitLines_append_line r.data hr [] t.data]
  simp

theorem unlines_append (a b : List String) : unlines (a ++ b) = unlines a ++ unlines b := by
  induction a with
  | nil => simp [unlines]
  | cons l a ih => simp [unlines, ih, String.append_assoc]

theorem textLines_unlines (ls : List String) (h : ∀ l ∈ ls, NoNewline l) :
    textLines (unlines ls) = ls := by
  induction ls with
  | nil => exact textLines_empty
  | cons l ls ih =>
    rw [unlines, textLines_line_append l _ (h l (List.mem_cons_self l ls)),
      ih (fun x hx => h x (List.mem_cons_of_mem l hx))]

theorem header_eq : header = headerLine ++ "\n" := by decide

theorem noNewline_append (a b : String) : NoNewline (a ++ b) ↔ NoNewline a ∧ NoNewline b := by
  simp [NoNewline, String.data_append, not_or]

theorem noNewline_mk (l : List Char) : NoNewline (String.mk l) ↔ '\n' ∉ l := Iff.rfl

theorem calculateStatus_cases (d : ℚ) :
    calculateStatus d = "CRITICAL" ∨ calculateStatus d = "WARNING" ∨
      calculateStatus d = "CAUTION" ∨ calculateStatus d = "SAFE" := by
  unfold calculateStatus
  split_ifs <;> simp

theorem noNewline_calculateStatus (d : ℚ) : NoNewline (calculateStatus d) := by
  rcases calculateStatus_cases d with h | h | h | h <;> rw [h] <;> decide

theorem noNewline_dbRecord (ts id dist : String) (d : ℚ) (hts : NoNewline ts)
    (hid : NoNewline id) (hdist : NoNewline dist) :
    NoNewline (dbRecord ts id dist (calculateStatus d)) := by
  have hc : NoNewline "," := by decide
  simp only [dbRecord, noNewline_append]
  exact ⟨⟨⟨⟨⟨⟨hts, hc⟩, hid⟩, hc⟩, hdist⟩, hc⟩, noNewline_calculateStatus d⟩

/-- A record is never the header line: it ends with a status, the header does
not. -/
theorem dbRecord_ne_headerLine (ts id dist : String) (d : ℚ) :
    dbRecord ts id dist (calculateStatus d) ≠ headerLine := by
  intro h
  have h2 := congrArg (fun x : String => x.data.reverse.head?) h
  rcases calculateStatus_cases d with hs | hs | hs | hs <;>
    · rw [hs] at h2
      simp [dbRecord, headerLine, String.data_append] at h2

theorem digitChar_ne_newline (k : Nat) : Nat.digitChar k ≠ '\n' := by
  by_cases h : k ≤ 15
  · interval_cases k <;> decide
  · have hk : Nat.digitChar k = '*' := by
      unfold Nat.digitChar
      repeat rw [if_neg (by omega)]
    rw [hk]
    decide

theorem toDigitsCore_clean (b : Nat) (f n : Nat) (ds : List Char) (h : '\n' ∉ ds) :
    '\n' ∉ Nat.toDigitsCore b f n ds := by
  induction f generalizing n ds with
  | zero => simpa [Nat.toDigitsCore] using h
  | succ f ih =>
    have hd : '\n' ∉ Nat.digitChar (n % b) :: ds := by
      intro e
      rcases List.mem_cons.mp e with e | e
      · exact digitChar_ne_newline _ e.symm
      · exact h e
    simp only [Nat.toDigitsCore]
    split_ifs
    · exact hd
    · exact ih _ _ hd

theorem toDigits_clean (b n : Nat) : '\n' ∉ Nat.toDigits b n :=
  toDigitsCore_clean b _ _ [] (by simp)

theorem noNewline_tickingClock (n : Nat) : NoNewline (tickingClock n) := by
  have h0 : NoNewline "2025-06-01 12:00:" := by decide
  simp only [tickingClock, noNewline_append, noNewline_mk]
  exact ⟨⟨h0, toDigits_clean _ _⟩, toDigits_clean _ _⟩

theorem stripZeros_clean (l : List Char) (h : '\n' ∉ l) : '\n' ∉ stripZeros l := by
  intro e
  unfold stripZeros at e
  rw [List.mem_reverse] at e
  have := (List.dropWhile_suffix (fun c => decide (c = '0'))).subset e
  exact h (List.mem_reverse.mp this)

theorem noNewline_ostreamFloat (x : ℚ) : NoNewline (ostreamFloat x) := by
  have hdig : ∀ n : Nat, '\n' ∉ Nat.toDigits 10 n := toDigits_clean 10
  have htake : ∀ (k : Nat) (l : List Char), '\n' ∉ l → '\n' ∉ l.take k :=
    fun k l h e => h (List.mem_of_mem_take e)
  have hdrop : ∀ (k : Nat) (l : List Char), '\n' ∉ l → '\n' ∉ l.drop k :=
    fun k l h e => h (List.mem_of_mem_drop e)
  have htail : ∀ (l : List Char), '\n' ∉ l → '\n' ∉ l.tail :=
    fun l h e => h (List.mem_of_mem_tail e)
  have hfrac : ∀ (l : List Char), '\n' ∉ l → '\n' ∉ (if l = [] then [] else '.' :: l) := by
    intro l h
    split_ifs
    · simp
    · intro e
      rcases List.mem_cons.mp e with e | e
      · exact absurd e (by decide)
      · exact h e
  have hsign : NoNewline (if x < 0 then "-" else "") := by
    split_ifs <;> decide
  have hite : ∀ {c : Prop} [Decidable c] {a b : String},
      NoNewline a → NoNewline b → NoNewline (if c then a else b) := by
    intro c _ a b ha hb
    split_ifs
    · exact ha
    · exact hb
  have hlite : ∀ {c : Prop} [Decidable c] {a b : List Char},
      '\n' ∉ a → '\n' ∉ b → '\n' ∉ (if c then a else b) := by
    intro c _ a b ha hb
    split_ifs
    · exact ha
    · exact hb
  unfold ostreamFloat
  refine hite (by decide) (hite ?_ (hite ?_ ?_))
  · simp only [noNewline_append, noNewline_mk]
    refine ⟨⟨⟨⟨hsign, ?_⟩, by decide⟩, ?_⟩, ?_⟩
    · intro e
      rcases List.mem_append.mp e with e | e
      · exact htake _ _ (hdig _) e
      · exact hfrac _ (stripZeros_clean _ (htail _ (hdig _))) e
    · exact hite (by decide) (by decide)
    · refine hlite ?_ (hdig _)
      intro e
      rcases List.mem_cons.mp e with e | e
      · exact absurd e (by decide)
      · exact hdig _ e
  · simp only [noNewline_append, noNewline_mk]
    refine ⟨hsign, ?_⟩
    intro e
    rcases List.mem_append.mp e with e | e
    · exact htake _ _ (hdig _) e
    · exact hfrac _ (stripZeros_clean _ (hdrop _ _ (hdig _))) e
  · simp only [noNewline_append, noNewline_mk]
    refine ⟨⟨hsign, by decide⟩, ?_⟩
    apply stripZeros_clean
    intro e
    rcases List.mem_append.mp e with e | e
    · exact absurd (List.eq_of_mem_replicate e) (by decide)
    · exact hdig _ e

/-! ## Effects of the handler on an accepted reading -/

theorem broadcastSensorData_eq (s : ServerState) :
    broadcastSensorData s =
      { s with trace := s.trace ++
          s.connections.map (fun c => Event.wsSend c (payloadOf s.sensor_data)) } := by
  simp [broadcastSensorData, snapshotJson_eq, payloadOf]

theorem storeInDatabase_closed (P : Platform) (id : String) (d : ℚ) (st : String)
    (s : ServerState) (h : s.db_open = false) : storeInDatabase P id d st s = s := by
  simp [storeInDatabase, h]

theorem storeInDatabase_bad (P : Platform) (id : String) (d : ℚ) (st : String)
    (s : ServerState) (ho : s.db_open = true) (hg : s.db_good = false) :
    storeInDatabase P id d st s = { s with clock := s.clock + 1 } := by
  simp [storeInDatabase, ho, hg, getCurrentTimestamp]

theorem storeInDatabase_ok (P : Platform) (id : String) (d : ℚ) (st : String)
    (s : ServerState) (ho : s.db_open = true) (hg : s.db_good = true)
    (hw : P.diskFails s.db_writes = none) :
    storeInDatabase P id d st s =
      { s with
        clock := s.clock + 1
        db_disk := s.db_disk ++ (s.db_buffer ++ dbLine (P.now s.clock) id (P.showFloat d) st)
        db_buffer := ""
        db_writes := s.db_writes + 1
        trace := s.trace ++
          [Event.dbFlush (s.db_buffer ++ dbLine (P.now s.clock) id (P.showFloat d) st)] } := by
  simp [storeInDatabase, ho, hg, getCurrentTimestamp, writeOut, hw]

theorem storeInDatabase_fail (P : Platform) (id : String) (d : ℚ) (st : String)
    (s : ServerState) (ho : s.db_open = true) (hg : s.db_good = true) (k : Nat)
    (hw : P.diskFails s.db_writes = some k) :
    storeInDatabase P id d st s =
      { s with
        clock := s.clock + 1
        db_good := false
        db_disk := s.db_disk ++
          (s.db_buffer ++ dbLine (P.now s.clock) id (P.showFloat d) st).take k
        db_buffer := (s.db_buffer ++ dbLine (P.now s.clock) id (P.showFloat d) st).drop k
        db_writes := s.db_writes + 1
        trace := s.trace ++
          [Event.dbFlush
            ((s.db_buffer ++ dbLine (P.now s.clock) id (P.showFloat d) st).take k)] } := by
  simp [storeInDatabase, ho, hg, getCurrentTimestamp, writeOut, hw]

/-- Whatever happens to the file, `storeInDatabase` leaves the map and the
connections alone and adds nothing but file events to the trace. -/
theorem storeInDatabase_shape (P : Platform) (id : String) (d : ℚ) (st : String)
    (s : ServerState) :
    (storeInDatabase P id d st s).sensor_data = s.sensor_data ∧
    (storeInDatabase P id d st s).connections = s.connections ∧
    ∃ es : List Event, (∀ e ∈ es, ∃ t, e = Event.dbFlush t) ∧
      (storeInDatabase P id d st s).trace = s.trace ++ es := by
  cases ho : s.db_open
  · rw [storeInDatabase_closed P id d st s ho]
    exact ⟨rfl, rfl, [], by simp, by simp⟩
  · cases hg : s.db_good
    · rw [storeInDatabase_bad P id d st s ho hg]
      exact ⟨rfl, rfl, [], by simp, by simp⟩
    · cases hw : P.diskFails s.db_writes with
      | none =>
        rw [storeInDatabase_ok P id d st s ho hg hw]
        exact ⟨rfl, rfl, [_], by simp, rfl⟩
      | some k =>
        rw [storeInDatabase_fail P id d st s ho hg k hw]
        exact ⟨rfl, rfl, [_], by simp, rfl⟩

/-- The shape of the state after an accepted reading, whatever happens to the
file: the map holds the reading, and the trace grows by file events, the
broadcast of the new map to every connection, and the acknowledgment. -/
theorem acceptReading_shape (P : Platform) (sock : Nat) (id : String) (d : ℚ)
    (s : ServerState) :
    (acceptReading P sock id d s).sensor_data = storeData s.sensor_data (readingOf P id d s) ∧
    (acceptReading P sock id d s).connections = s.connections ∧
    ∃ es : List Event, (∀ e ∈ es, ∃ t, e = Event.dbFlush t) ∧
      (acceptReading P sock id d s).trace =
        s.trace ++ es ++
          s.connections.map
            (fun c => Event.wsSend c (payloadOf (storeData s.sensor_data (readingOf P id d s)))) ++
          [Event.tcpSend sock "ACK"] := by
  cases ho : s.db_open
  · refine ⟨?_, ?_, [], by simp, ?_⟩ <;>
      simp [acceptReading, getCurrentTimestamp, storeInDatabase, ho, broadcastSensorData_eq,
        readingOf]
  · cases hg : s.db_good
    · refine ⟨?_, ?_, [], by simp, ?_⟩ <;>
        simp [acceptReading, getCurrentTimestamp, storeInDatabase, ho, hg,
          broadcastSensorData_eq, readingOf]
    · cases hw : P.diskFails s.db_writes with
      | none =>
        refine ⟨?_, ?_, [Event.dbFlush (s.db_buffer ++ recordOf P id d s)], by simp, ?_⟩ <;>
          simp [acceptReading, getCurrentTimestamp, storeInDatabase, writeOut, ho, hg, hw,
            broadcastSensorData_eq, readingOf, recordOf]
      | some k =>
        refine ⟨?_, ?_, [Event.dbFlush ((s.db_buffer ++ recordOf P id d s).take k)], by simp,
          ?_⟩ <;>
          simp [acceptReading, getCurrentTimestamp, storeInDatabase, writeOut, ho, hg, hw,
            broadcastSensorData_eq, readingOf, recordOf]

/-- The state after an accepted reading when the persistence file is open, its
stream has no error and the write succeeds. -/
theorem acceptReading_ok (P : Platform) (sock : Nat) (id : String) (d : ℚ) (s : ServerState)
    (ho : s.db_open = true) (hg : s.db_good = true) (hw : P.diskFails s.db_writes = none) :
    acceptReading P sock id d s =
      { sensor_data := storeData s.sensor_data (readingOf P id d s)
        db_open := true
        db_good := true
        db_disk := s.db_disk ++ (s.db_buffer ++ recordOf P id d s)
        db_buffer := ""
        db_writes := s.db_writes + 1
        connections := s.connections
        clock := s.clock + 2
        trace := s.trace ++ [Event.dbFlush (s.db_buffer ++ recordOf P id d s)] ++
          s.connections.map
            (fun c => Event.wsSend c (payloadOf (storeData s.sensor_data (readingOf P id d s)))) ++
          [Event.tcpSend sock "ACK"] } := by
  simp [acceptReading, getCurrentTimestamp, storeInDatabase, writeOut, ho, hg, hw,
    broadcastSensorData_eq, readingOf, recordOf]

/-- The persistence file after an accepted reading when the file is not open or
its stream has an error: nothing changes. -/
theorem acceptReading_db_idle (P : Platform) (sock : Nat) (id : String) (d : ℚ)
    (s : ServerState) (h : s.db_open = false ∨ s.db_good = false) :
    (acceptReading P sock id d s).db_open = s.db_open ∧
    (acceptReading P sock id d s).db_good = s.db_good ∧
    (acceptReading P sock id d s).db_disk = s.db_disk ∧
    (acceptReading P sock id d s).db_buffer = s.db_buffer := by
  cases ho : s.db_open
  · simp [acceptReading, getCurrentTimestamp, storeInDatabase, ho, broadcastSensorData_eq]
  · have hg : s.db_good = false := by
      rcases h with h | h
      · rw [ho] at h
        cases h
      · exact h
    simp [acceptReading, getCurrentTimestamp, storeInDatabase, ho, hg, broadcastSensorData_eq]

/-- The persistence file after an accepted reading when the write fails after
`k` characters. -/
theorem acceptReading_db_fail (P : Platform) (sock : Nat) (id : String) (d : ℚ)
    (s : ServerState) (ho : s.db_open = true) (hg : s.db_good = true) (k : Nat)
    (hw : P.diskFails s.db_writes = some k) :
    (acceptReading P sock id d s).db_open = true ∧
    (acceptReading P sock id d s).db_good = false ∧
    (acceptReading P sock id d s).db_disk =
      s.db_disk ++ (s.db_buffer ++ recordOf P id d s).take k ∧
    (acceptReading P sock id d s).db_buffer = (s.db_buffer ++ recordOf P id d s).drop k := by
  simp [acceptReading, getCurrentTimestamp, storeInDatabase, writeOut, ho, hg, hw,
    broadcastSensorData_eq, recordOf]

/-- C2: the handler stores an accepted reading by `storeData`; after any finite
sequence of readings stored into an empty `sensor_data` map, the map has one
entry per sensor identifier occurring in the sequence, the entry of an identifier
is exactly the object built from the distance, status and timestamp of the last
reading with that identifier, storing a reading replaces the entry of its
identifier whatever was there and leaves the entries of all other identifiers
unchanged, and readings with pairwise distinct identifiers are all present at the
end. -/
theorem sensor_data_last_write_wins (rs : List Reading) :
    (∀ (P : Platform) (client_socket : Nat) (sensor_id : String) (distance : ℚ)
        (s : ServerState),
      (acceptReading P client_socket sensor_id distance s).sensor_data =
        storeData s.sensor_data
          ⟨sensor_id, distance, calculateStatus distance, P.now s.clock⟩) ∧
    (rs.foldl storeData ∅).keys.Nodup ∧
    (∀ id, id ∈ (rs.foldl storeData ∅).keys ↔ id ∈ rs.map Reading.sensor_id) ∧
    (∀ id, (rs.foldl storeData ∅).lookup id =
      (rs.reverse.find? (fun r => r.sensor_id = id)).map
        (fun r => sensorInfo r.distance r.status r.timestamp)) ∧
    (∀ (m : AList (fun _ : String => Json)) (r : Reading),
      (storeData m r).lookup r.sensor_id = some (sensorInfo r.distance r.status r.timestamp)) ∧
    (∀ (m : AList (fun _ : String => Json)) (r : Reading) (id : String),
      id ≠ r.sensor_id → (storeData m r).lookup id = m.lookup id) ∧
    ((rs.map Reading.sensor_id).Nodup →
      (rs.foldl storeData ∅).keys.length = rs.length ∧
      ∀ r ∈ rs, (rs.foldl storeData ∅).lookup r.sensor_id =
        some (sensorInfo r.distance r.status r.timestamp)) ∧
    (∀ (d d' : ℚ) (st st' ts ts' : String),
      sensorInfo d st ts = sensorInfo d' st' ts' → d = d' ∧ st = st' ∧ ts = ts') := by
  have hmem : ∀ id, id ∈ (rs.foldl storeData ∅).keys ↔ id ∈ rs.map Reading.sensor_id := by
    intro id
    rw [← AList.mem_keys, mem_foldl_storeData]
    simp
  have hlook : ∀ id, (rs.foldl storeData ∅).lookup id =
      (rs.reverse.find? (fun r => r.sensor_id = id)).map
        (fun r => sensorInfo r.distance r.status r.timestamp) := by
    intro id
    rw [lookup_foldl_storeData]
    cases rs.reverse.find? (fun r => r.sensor_id = id) <;> simp
  refine ⟨?_, AList.keys_nodup _, hmem, hlook, lookup_storeData_self,
    fun m r id h => lookup_storeData_ne m r h, ?_, fun _ _ _ _ _ _ h => sensorInfo_inj h⟩
  · intro P sock id d s
    exact (acceptReading_shape P sock id d s).1
  intro hnd
  constructor
  · have hp : (rs.foldl storeData ∅).keys.Perm (rs.map Reading.sensor_id) :=
      (List.perm_ext_iff_of_nodup (AList.keys_nodup _) hnd).mpr hmem
    simpa using hp.length_eq
  · intro r hr
    rw [hlook]
    cases hf : rs.reverse.find? (fun x => x.sensor_id = r.sensor_id) with
    | none =>
      have := List.find?_eq_none.mp hf r (List.mem_reverse.mpr hr)
      simp at this
    | some r' =>
      have h1 : r'.sensor_id = r.sensor_id := by simpa using List.find?_some hf
      have h2 : r' ∈ rs := List.mem_reverse.mp (List.mem_of_find?_eq_some hf)
      have h3 : r' = r := List.inj_on_of_nodup_map hnd h2 hr h1
      simp [h3]

/-! ## Rejected messages -/

/-- C3: when the received buffer does not decode (the decoder throws), or decodes
to a value without a member `sensor_id` or without a member `distance`, the
handler leaves the whole server state as it was (the map, the persistence file and
its buffer, and the trace, so that nothing is appended, no acknowledgment is sent
and the socket is not closed) and goes on with the next `read`. -/
theorem handleClient_discards_invalid (P : Platform) (client_socket : Nat) (buffer : String)
    (rest : List Recv) (s : ServerState)
    (h : P.parse buffer = none ∨
      ∃ data, P.parse buffer = some data ∧
        (data.contains "sensor_id" = false ∨ data.contains "distance" = false)) :
    handleBuffer P client_socket buffer s = s ∧
    handleClient P client_socket (Recv.data buffer :: rest) s =
      handleClient P client_socket rest s := by
  have hb : handleBuffer P client_socket buffer s = s := by
    rcases h with h | ⟨data, hp, h | h⟩
    · simp [handleBuffer, h]
    · simp [handleBuffer, hp, h]
    · simp [handleBuffer, hp, h]
  exact ⟨hb, by simp [handleClient, hb]⟩

/-- Witness for C3: the message with only a `sensor_id` member, received by a
fresh server. -/
theorem handleClient_discards_invalid_witness :
    handleBuffer stdPlatform 7 "\x7b\"sensor_id\":\"s1\"\x7d" (ProximityServer true "") =
      ProximityServer true "" ∧
    handleClient stdPlatform 7 [Recv.data "\x7b\"sensor_id\":\"s1\"\x7d", Recv.closed]
        (ProximityServer true "") =
      handleClient stdPlatform 7 [Recv.closed] (ProximityServer true "") :=
  handleClient_discards_invalid stdPlatform 7 "\x7b\"sensor_id\":\"s1\"\x7d" [Recv.closed]
    (ProximityServer true "")
    (Or.inr ⟨Json.object [("sensor_id", Json.string "s1")], by decide!, Or.inr (by decide!)⟩)

/-! ## Accepted messages -/

theorem handleBuffer_of_decode_some (P : Platform) (sock : Nat) (buffer : String)
    (s : ServerState) {id : String} {d : ℚ} (h : decode P buffer = some (id, d)) :
    handleBuffer P sock buffer s = acceptReading P sock id d s := by
  unfold decode at h
  unfold handleBuffer
  cases hp : P.parse buffer with
  | none => simp [hp] at h
  | some data =>
    simp only [hp] at h ⊢
    by_cases hc : data.contains "sensor_id" = true ∧ data.contains "distance" = true
    · simp only [hc, and_self, if_true] at h ⊢
      cases h1 : (data.index "sensor_id").bind Json.getString with
      | none => simp [h1] at h
      | some id' =>
        cases h2 : (data.index "distance").bind (Json.getFloat P.toFloat) with
        | none => simp [h1, h2] at h
        | some d' =>
          simp only [h1, h2, Option.some.injEq, Prod.mk.injEq] at h
          obtain ⟨rfl, rfl⟩ := h
          rfl
    · simp [hc] at h

theorem handleBuffer_of_decode_none (P : Platform) (sock : Nat) (buffer : String)
    (s : ServerState) (h : decode P buffer = none) :
    handleBuffer P sock buffer s = s := by
  unfold decode at h
  unfold handleBuffer
  cases hp : P.parse buffer with
  | none => rfl
  | some data =>
    simp only [hp] at h ⊢
    by_cases hc : data.contains "sensor_id" = true ∧ data.contains "distance" = true
    · simp only [hc, and_self, if_true] at h ⊢
      cases h1 : (data.index "sensor_id").bind Json.getString with
      | none => rfl
      | some id' =>
        cases h2 : (data.index "distance").bind (Json.getFloat P.toFloat) with
        | none => rfl
        | some d' => simp [h1, h2] at h
    · simp [hc]

/-! ## Traces -/

theorem wsSends_append (a b : List Event) : wsSends (a ++ b) = wsSends a ++ wsSends b := by
  induction a with
  | nil => rfl
  | cons e a ih => cases e <;> simp [wsSends, ih]

theorem wsSends_map (cs : List Nat) (payload : Json) :
    wsSends (cs.map (fun c => Event.wsSend c payload)) = cs.map (fun c => (c, payload)) := by
  induction cs with
  | nil => rfl
  | cons c cs ih => simp [wsSends, ih]

theorem wsSends_flushes (es : List Event) (h : ∀ e ∈ es, ∃ t, e = Event.dbFlush t) :
    wsSends es = [] := by
  induction es with
  | nil => rfl
  | cons e es ih =>
    obtain ⟨t, rfl⟩ := h e (List.mem_cons_self e es)
    simpa [wsSends] using ih (fun x hx => h x (List.mem_cons_of_mem _ hx))

theorem count_ack_flushes (sock : Nat) (es : List Event)
    (h : ∀ e ∈ es, ∃ t, e = Event.dbFlush t) :
    es.count (Event.tcpSend sock "ACK") = 0 := by
  apply List.count_eq_zero.mpr
  intro hm
  obtain ⟨t, ht⟩ := h _ hm
  cases ht

theorem storeData_entries_ne_nil (m : AList (fun _ : String => Json)) (r : Reading) :
    (storeData m r).entries ≠ [] := by
  simp [storeData, AList.insert_entries]

theorem count_ack_acceptReading (P : Platform) (sock : Nat) (id : String) (d : ℚ)
    (s : ServerState) :
    (acceptReading P sock id d s).trace.count (Event.tcpSend sock "ACK") =
      s.trace.count (Event.tcpSend sock "ACK") + 1 := by
  have hz : ∀ (cs : List Nat) (j : Json),
      (cs.map (fun c => Event.wsSend c j)).count (Event.tcpSend sock "ACK") = 0 := by
    intro cs j
    apply List.count_eq_zero.mpr
    simp
  obtain ⟨_, _, es, hes, ht⟩ := acceptReading_shape P sock id d s
  rw [ht]
  simp [List.count_append, hz, count_ack_flushes sock es hes]

/-! ## Durability and acknowledgment -/

/-- C4, counterexample: when opening the persistence file failed at start-up, a
valid reading is acknowledged although no record reaches the file or the stream
buffer; and when the file is open but the disk is full, the reading is
acknowledged although nothing reaches the file. -/
theorem ack_without_record :
    decode stdPlatform msgS1 = some ("s1", 5) ∧
    (handleClient stdPlatform 7 [Recv.data msgS1] (ProximityServer false "")).trace =
      [Event.tcpSend 7 "ACK"] ∧
    (handleClient stdPlatform 7 [Recv.data msgS1] (ProximityServer false "")).db_disk = "" ∧
    (handleClient stdPlatform 7 [Recv.data msgS1] (ProximityServer false "")).db_buffer = "" ∧
    (handleClient fullDiskPlatform 7 [Recv.data msgS1] (ProximityServer true "")).db_open =
      true ∧
    (handleClient fullDiskPlatform 7 [Recv.data msgS1]
        (ProximityServer true "")).trace.count (Event.tcpSend 7 "ACK") = 1 ∧
    (handleClient fullDiskPlatform 7 [Recv.data msgS1] (ProximityServer true "")).db_disk =
      "" := by
  decide!

/-- C4, amended: the handler of an accepted reading always ends by sending the
acknowledgment, without looking at what became of the record.  When `db_file` is
open, its stream has no error and the write made by `storeInDatabase` succeeds,
the effects are, in this order, one flush that puts the record of the reading
(its sensor identifier, distance and status, stamped by `storeInDatabase`) at the
end of the file on disk, the broadcast, and then the acknowledgment, and the
stream buffer is empty when the acknowledgment is sent.  When `db_file` is not
open the file is left as it was, and when the write fails after `k` characters
only these reach the disk and the error flag of the stream is set; the
acknowledgment is sent all the same. -/
theorem record_flushed_before_ack (P : Platform) (client_socket : Nat) (buffer : String)
    (s : ServerState) (sensor_id : String) (distance : ℚ)
    (h : decode P buffer = some (sensor_id, distance)) :
    (∃ pre : List Event,
      (handleBuffer P client_socket buffer s).trace =
        s.trace ++ pre ++ [Event.tcpSend client_socket "ACK"]) ∧
    (s.db_open = true → s.db_good = true → P.diskFails s.db_writes = none →
      (handleBuffer P client_socket buffer s).trace =
        s.trace ++
          [Event.dbFlush (s.db_buffer ++
            dbLine (P.now (s.clock + 1)) sensor_id (P.showFloat distance)
              (calculateStatus distance))] ++
          s.connections.map (fun c =>
            Event.wsSend c (payloadOf (handleBuffer P client_socket buffer s).sensor_data)) ++
          [Event.tcpSend client_socket "ACK"] ∧
      (handleBuffer P client_socket buffer s).db_disk =
        s.db_disk ++ s.db_buffer ++
          dbLine (P.now (s.clock + 1)) sensor_id (P.showFloat distance)
            (calculateStatus distance) ∧
      (handleBuffer P client_socket buffer s).db_buffer = "") ∧
    (s.db_open = false →
      (handleBuffer P client_socket buffer s).db_disk = s.db_disk ∧
      (handleBuffer P client_socket buffer s).db_buffer = s.db_buffer) ∧
    (∀ k : Nat, s.db_open = true → s.db_good = true → P.diskFails s.db_writes = some k →
      (handleBuffer P client_socket buffer s).db_disk =
        s.db_disk ++
          (s.db_buffer ++
            dbLine (P.now (s.clock + 1)) sensor_id (P.showFloat distance)
              (calculateStatus distance)).take k ∧
      (handleBuffer P client_socket buffer s).db_good = false) := by
  rw [handleBuffer_of_decode_some P client_socket buffer s h]
  refine ⟨?_, ?_, ?_, ?_⟩
  · obtain ⟨_, _, es, _, ht⟩ := acceptReading_shape P client_socket sensor_id distance s
    exact ⟨es ++ s.connections.map (fun c =>
      Event.wsSend c (payloadOf (storeData s.sensor_data (readingOf P sensor_id distance s)))),
      by rw [ht]; simp⟩
  · intro ho hg hw
    rw [acceptReading_ok P client_socket sensor_id distance s ho hg hw]
    simp [recordOf, String.append_assoc]
  · intro hc
    exact (acceptReading_db_idle P client_socket sensor_id distance s (Or.inl hc)).2.2
  · intro k ho hg hw
    obtain ⟨_, h2, h3, _⟩ := acceptReading_db_fail P client_socket sensor_id distance s ho hg k hw
    exact ⟨h3, h2⟩

/-- Witness for the amended C4: sensor s1 reports 5.0 to a fresh server whose
persistence file is open and empty.  On a disk that takes the write the header
and the record are on disk when the acknowledgment is sent; on a full disk the
stream ends with its error flag set. -/
theorem record_flushed_before_ack_witness :
    decode stdPlatform msgS1 = some ("s1", 5) ∧
    (ProximityServer true "").db_disk ++ (ProximityServer true "").db_buffer ++
        dbLine (stdPlatform.now 1) "s1" (stdPlatform.showFloat 5) (calculateStatus 5) =
      "timestamp,sensor_id,distance,status\n2025-06-01 12:00:01,s1,5,CRITICAL\n" ∧
    (handleBuffer stdPlatform 7 msgS1 (ProximityServer true "")).db_disk =
      (ProximityServer true "").db_disk ++ (ProximityServer true "").db_buffer ++
        dbLine (stdPlatform.now 1) "s1" (stdPlatform.showFloat 5) (calculateStatus 5) ∧
    (handleBuffer stdPlatform 7 msgS1 (ProximityServer true "")).db_buffer = "" ∧
    (handleBuffer fullDiskPlatform 7 msgS1 (ProximityServer true "")).db_good = false :=
  ⟨by decide!, by decide!,
    ((record_flushed_before_ack stdPlatform 7 msgS1 (ProximityServer true "") "s1" 5
      (by decide!)).2.1 rfl rfl rfl).2.1,
    ((record_flushed_before_ack stdPlatform 7 msgS1 (ProximityServer true "") "s1" 5
      (by decide!)).2.1 rfl rfl rfl).2.2,
    ((record_flushed_before_ack fullDiskPlatform 7 msgS1 (ProximityServer true "") "s1" 5
      (by decide!)).2.2.2 0 rfl rfl rfl).2⟩

/-! ## Broadcast -/

/-- C5: after every accepted reading the handler sends one and the same payload
to every connection of the endpoint; the payload is the value built by
`broadcastSensorData` from the whole map as it is after the reading was stored:
a JSON object whose members are exactly the entries of the map, among them the
entry of the reading under its sensor identifier. -/
theorem broadcast_full_snapshot (P : Platform) (client_socket : Nat) (buffer : String)
    (s : ServerState) (sensor_id : String) (distance : ℚ)
    (h : decode P buffer = some (sensor_id, distance)) :
    ∃ members : List (String × Json),
      wsSends (handleBuffer P client_socket buffer s).trace =
        wsSends s.trace ++ s.connections.map (fun c => (c, Json.object members)) ∧
      (handleBuffer P client_socket buffer s).connections = s.connections ∧
      snapshotJson (handleBuffer P client_socket buffer s).sensor_data =
        some (Json.object members) ∧
      (∀ k, Json.lookupMember k members =
        (handleBuffer P client_socket buffer s).sensor_data.lookup k) ∧
      (∀ k, (Json.object members).contains k = true ↔
        k ∈ (handleBuffer P client_socket buffer s).sensor_data.keys) ∧
      Json.lookupMember sensor_id members =
        some (sensorInfo distance (calculateStatus distance) (P.now s.clock)) := by
  rw [handleBuffer_of_decode_some P client_socket buffer s h]
  have hp : payloadOf (storeData s.sensor_data (readingOf P sensor_id distance s)) =
      Json.object (assignAll (storeData s.sensor_data (readingOf P sensor_id distance s)).entries
        []) := by
    simp [payloadOf, storeData_entries_ne_nil]
  obtain ⟨hsd, hconn, es, hes, ht⟩ := acceptReading_shape P client_socket sensor_id distance s
  refine ⟨assignAll (storeData s.sensor_data (readingOf P sensor_id distance s)).entries [],
    ?_, hconn, ?_, ?_, ?_, ?_⟩
  · rw [ht]
    simp [wsSends_append, wsSends_map, wsSends, hp, wsSends_flushes es hes]
  · rw [hsd, snapshotJson_eq]
    exact congrArg some hp
  · intro k
    rw [hsd, lookupMember_snapshot]
  · intro k
    rw [hsd, ← AList.mem_keys, ← AList.lookup_isSome]
    simp [Json.contains, lookupMember_snapshot]
  · rw [lookupMember_snapshot]
    exact lookup_storeData_self s.sensor_data (readingOf P sensor_id distance s)

/-- Witness for C5: sensor s1 reports 5.0 while one subscriber is connected. -/
theorem broadcast_full_snapshot_witness :
    decode stdPlatform msgS1 = some ("s1", 5) ∧
    ∃ members : List (String × Json),
      wsSends (handleBuffer stdPlatform 7 msgS1 (wsConnect 3 (ProximityServer true ""))).trace =
        wsSends (wsConnect 3 (ProximityServer true "")).trace ++
          (wsConnect 3 (ProximityServer true "")).connections.map
            (fun c => (c, Json.object members)) ∧
      Json.lookupMember "s1" members =
        some (sensorInfo 5 (calculateStatus 5) (stdPlatform.now 0)) := by
  refine ⟨by decide!, ?_⟩
  obtain ⟨members, h1, _, _, _, _, h2⟩ :=
    broadcast_full_snapshot stdPlatform 7 msgS1 (wsConnect 3 (ProximityServer true "")) "s1" 5
      (by decide!)
  exact ⟨members, h1, h2⟩

/-- C7, evaluation at the failing input: a subscriber that connects to a server
that has not stored any reading is sent the JSON value null, which is not the
empty object. -/
theorem empty_snapshot_is_null :
    (wsConnect 3 (ProximityServer true "")).trace = [Event.wsSend 3 Json.null] ∧
    snapshotJson (ProximityServer true "").sensor_data = some Json.null ∧
    Json.null ≠ Json.object [] := by
  decide!

/-! ## Persisted records and timestamps -/

/-- C6, counterexample: sensor s1 reports 5.0 to a fresh server while the clock
advances by a second between its two readings.  The entry of s1 in the map is
stamped 12:00:00, the only record written is stamped 12:00:01 and shows the
distance as `5`; the line that the claim predicts is not in the file.  On a full
disk the same reading adds no line at all. -/
theorem record_timestamp_differs :
    decode stdPlatform msgS1 = some ("s1", 5) ∧
    (handleClient stdPlatform 7 [Recv.data msgS1] (ProximityServer true "")).sensor_data.lookup
        "s1" = some (sensorInfo 5 "CRITICAL" "2025-06-01 12:00:00") ∧
    textLines (handleClient stdPlatform 7 [Recv.data msgS1] (ProximityServer true "")).db_disk =
      [headerLine, "2025-06-01 12:00:01,s1,5,CRITICAL"] ∧
    "2025-06-01 12:00:00,s1,5.0,CRITICAL" ∉
      textLines (handleClient stdPlatform 7 [Recv.data msgS1] (ProximityServer true "")).db_disk ∧
    "2025-06-01 12:00:00,s1,5,CRITICAL" ∉
      textLines
        (handleClient stdPlatform 7 [Recv.data msgS1] (ProximityServer true "")).db_disk ∧
    textLines
        (handleClient fullDiskPlatform 7 [Recv.data msgS1] (ProximityServer true "")).db_disk =
      [] := by
  decide!

/-- C6, amended: for every accepted reading with sensor identifier `id` and
distance `d` handled while `db_file` is open, its stream has no error and the
write succeeds, the persistence file (with its stream buffer) gains exactly the
text `ts,id,dist,status` followed by a line break, all of it flushed to disk,
where `status` is `calculateStatus d`, `dist` is the default stream rendering of
`d` (so 5.0 is written `5`) and `ts` is the clock reading taken by
`storeInDatabase`, one reading later than the timestamp kept for the reading in
the map.  The sensor identifier is written as received: when neither it nor the
timestamp nor the rendered distance contains a line break, the text is exactly
one line, and a file made of whole lines gains exactly that line; an identifier
with a line break, such as the two-line identifier evaluated last, spreads the
record over several lines. -/
theorem record_line (P : Platform) (client_socket : Nat) (buffer : String)
    (s : ServerState) (sensor_id : String) (distance : ℚ)
    (h : decode P buffer = some (sensor_id, distance)) (ho : s.db_open = true)
    (hg : s.db_good = true) (hw : P.diskFails s.db_writes = none) :
    (handleBuffer P client_socket buffer s).db_disk ++
        (handleBuffer P client_socket buffer s).db_buffer =
      (s.db_disk ++ s.db_buffer) ++
        (P.now (s.clock + 1) ++ "," ++ sensor_id ++ "," ++ P.showFloat distance ++ "," ++
          calculateStatus distance ++ "\n") ∧
    (handleBuffer P client_socket buffer s).db_buffer = "" ∧
    (handleBuffer P client_socket buffer s).sensor_data.lookup sensor_id =
      some (sensorInfo distance (calculateStatus distance) (P.now s.clock)) ∧
    (NoNewline (P.now (s.clock + 1)) → NoNewline sensor_id → NoNewline (P.showFloat distance) →
      textLines
          (P.now (s.clock + 1) ++ "," ++ sensor_id ++ "," ++ P.showFloat distance ++ "," ++
            calculateStatus distance ++ "\n") =
        [P.now (s.clock + 1) ++ "," ++ sensor_id ++ "," ++ P.showFloat distance ++ "," ++
          calculateStatus distance] ∧
      ∀ ls : List String, (∀ l ∈ ls, NoNewline l) → s.db_disk ++ s.db_buffer = unlines ls →
        textLines ((handleBuffer P client_socket buffer s).db_disk ++
            (handleBuffer P client_socket buffer s).db_buffer) =
          ls ++ [P.now (s.clock + 1) ++ "," ++ sensor_id ++ "," ++ P.showFloat distance ++ "," ++
            calculateStatus distance]) ∧
    ostreamFloat 5 = "5" ∧
    dbLine (stdPlatform.now 1) "s1" (stdPlatform.showFloat 5) (calculateStatus 5) =
      "2025-06-01 12:00:01,s1,5,CRITICAL\n" ∧
    textLines (dbLine "2025-06-01 12:00:01" "a\nb" "5" "CRITICAL") =
      ["2025-06-01 12:00:01,a", "b,5,CRITICAL"] := by
  rw [handleBuffer_of_decode_some P client_socket buffer s h,
    acceptReading_ok P client_socket sensor_id distance s ho hg hw]
  have hrec : recordOf P sensor_id distance s =
      P.now (s.clock + 1) ++ "," ++ sensor_id ++ "," ++ P.showFloat distance ++ "," ++
        calculateStatus distance ++ "\n" := rfl
  have hcontent : s.db_disk ++ (s.db_buffer ++ recordOf P sensor_id distance s) ++ "" =
      (s.db_disk ++ s.db_buffer) ++ recordOf P sensor_id distance s := by
    simp [String.append_assoc]
  refine ⟨by rw [← hrec]; exact hcontent, rfl,
    lookup_storeData_self s.sensor_data (readingOf P sensor_id distance s), ?_,
    by decide!, by decide!, by decide!⟩
  intro hts hid hdist
  have hnn : NoNewline
      (P.now (s.clock + 1) ++ "," ++ sensor_id ++ "," ++ P.showFloat distance ++ "," ++
        calculateStatus distance) :=
    noNewline_dbRecord _ _ _ distance hts hid hdist
  constructor
  · have := textLines_line_append _ "" hnn
    simpa [textLines_empty] using this
  · intro ls hls hcont
    show textLines (s.db_disk ++ (s.db_buffer ++ recordOf P sensor_id distance s) ++ "") = _
    rw [hcontent, hcont, hrec]
    have hu : unlines ls ++
        (P.now (s.clock + 1) ++ "," ++ sensor_id ++ "," ++ P.showFloat distance ++ "," ++
          calculateStatus distance ++ "\n") =
        unlines (ls ++ [P.now (s.clock + 1) ++ "," ++ sensor_id ++ "," ++
          P.showFloat distance ++ "," ++ calculateStatus distance]) := by
      rw [unlines_append]
      simp [unlines]
    rw [hu]
    apply textLines_unlines
    intro l hl
    rcases List.mem_append.mp hl with hl | hl
    · exact hls l hl
    · rw [List.mem_singleton.mp hl]
      exact hnn

/-- Witness for the amended C6: sensor s1 reports 5.0 to a fresh server whose
persistence file is open and empty, on a disk that takes the write. -/
theorem record_line_witness :
    decode stdPlatform msgS1 = some ("s1", 5) ∧
    (ProximityServer true "").db_open = true ∧
    (ProximityServer true "").db_good = true ∧
    stdPlatform.diskFails (ProximityServer true "").db_writes = none ∧
    (handleBuffer stdPlatform 7 msgS1 (ProximityServer true "")).db_disk ++
        (handleBuffer stdPlatform 7 msgS1 (ProximityServer true "")).db_buffer =
      ((ProximityServer true "").db_disk ++ (ProximityServer true "").db_buffer) ++
        (stdPlatform.now 1 ++ "," ++ "s1" ++ "," ++ stdPlatform.showFloat 5 ++ "," ++
          calculateStatus 5 ++ "\n") :=
  ⟨by decide!, rfl, rfl, rfl,
    (record_line stdPlatform 7 msgS1 (ProximityServer true "") "s1" 5 (by decide!) rfl rfl
      rfl).1⟩

/-- C9, counterexample: a valid message that carries the timestamp
`2024-01-01 00:00:00` is stored with the server's clock reading
`2025-06-01 12:00:00`. -/
theorem message_timestamp_ignored :
    (stdPlatform.parse msgS1Stamped).bind (fun data => data.index "timestamp") =
      some (Json.string "2024-01-01 00:00:00") ∧
    decode stdPlatform msgS1Stamped = some ("s1", 5) ∧
    (handleClient stdPlatform 7 [Recv.data msgS1Stamped]
        (ProximityServer true "")).sensor_data.lookup "s1" =
      some (sensorInfo 5 "CRITICAL" "2025-06-01 12:00:00") ∧
    (handleClient stdPlatform 7 [Recv.data msgS1Stamped]
        (ProximityServer true "")).sensor_data.lookup "s1" ≠
      some (sensorInfo 5 "CRITICAL" "2024-01-01 00:00:00") := by
  decide!

/-- C9, amended: for every accepted message, whether or not it carries a
`timestamp` member, the reading stored for its sensor identifier has the clock
reading taken by the server when it handles the message; nothing but the sensor
identifier and the distance of the message has any effect on the server. -/
theorem stored_timestamp_is_receipt_time (P : Platform) (client_socket : Nat) (buffer : String)
    (s : ServerState) (sensor_id : String) (distance : ℚ)
    (h : decode P buffer = some (sensor_id, distance)) :
    (handleBuffer P client_socket buffer s).sensor_data.lookup sensor_id =
      some (sensorInfo distance (calculateStatus distance) (P.now s.clock)) ∧
    ∀ buffer2 : String, decode P buffer2 = decode P buffer →
      handleBuffer P client_socket buffer2 s = handleBuffer P client_socket buffer s := by
  constructor
  · rw [handleBuffer_of_decode_some P client_socket buffer s h,
      (acceptReading_shape P client_socket sensor_id distance s).1]
    exact lookup_storeData_self s.sensor_data (readingOf P sensor_id distance s)
  · intro buffer2 h2
    rw [handleBuffer_of_decode_some P client_socket buffer s h,
      handleBuffer_of_decode_some P client_socket buffer2 s (h2.trans h)]

/-- Witness for the amended C9: the stamped and the unstamped message of sensor
s1 have the same effect on a fresh server. -/
theorem stored_timestamp_is_receipt_time_witness :
    decode stdPlatform msgS1Stamped = some ("s1", 5) ∧
    (handleBuffer stdPlatform 7 msgS1Stamped (ProximityServer true "")).sensor_data.lookup "s1" =
      some (sensorInfo 5 (calculateStatus 5) (stdPlatform.now 0)) ∧
    handleBuffer stdPlatform 7 msgS1 (ProximityServer true "") =
      handleBuffer stdPlatform 7 msgS1Stamped (ProximityServer true "") :=
  ⟨by decide!,
    (stored_timestamp_is_receipt_time stdPlatform 7 msgS1Stamped (ProximityServer true "")
      "s1" 5 (by decide!)).1,
    (stored_timestamp_is_receipt_time stdPlatform 7 msgS1Stamped (ProximityServer true "")
      "s1" 5 (by decide!)).2 msgS1 (by decide!)⟩

/-! ## Message framing -/

/-- C10, counterexample: each of the two messages is accepted when it arrives in
a receive of its own (two acknowledgments), but when both arrive in one receive
the buffer is discarded as a whole, and when the first arrives split over two
receives both parts are discarded: no entry, no record, no acknowledgment. -/
theorem receive_boundaries_matter :
    decode stdPlatform msgS1 = some ("s1", 5) ∧
    decode stdPlatform msgS2 = some ("s2", 60) ∧
    msgS1Head ++ msgS1Tail = msgS1 ∧
    (handleClient stdPlatform 7 [Recv.data msgS1, Recv.data msgS2]
        (ProximityServer true "")).trace.count (Event.tcpSend 7 "ACK") = 2 ∧
    (handleClient stdPlatform 7 [Recv.data (msgS1 ++ msgS2)] (ProximityServer true "")).trace =
      [] ∧
    (handleClient stdPlatform 7 [Recv.data (msgS1 ++ msgS2)]
        (ProximityServer true "")).sensor_data.keys = [] ∧
    (handleClient stdPlatform 7 [Recv.data (msgS1 ++ msgS2)] (ProximityServer true "")).db_disk =
      "" ∧
    (handleClient stdPlatform 7 [Recv.data msgS1Head, Recv.data msgS1Tail]
        (ProximityServer true "")).trace = [] ∧
    (handleClient stdPlatform 7 [Recv.data msgS1Head, Recv.data msgS1Tail]
        (ProximityServer true "")).sensor_data.keys = [] ∧
    (handleClient stdPlatform 7 [Recv.data msgS1Head, Recv.data msgS1Tail]
        (ProximityServer true "")).db_disk = "" := by
  decide!

/-- C10, amended: the handler takes every transport receive as exactly one
message.  The buffer of a receive is accepted exactly when, taken as a whole, it
decodes to one value with a sensor identifier and a distance, and is discarded
otherwise, so one receive yields at most one acknowledgment however many
messages its bytes hold; the receives are handled one after the other, each on
the state left by the one before; and the number of acknowledgments sent is the
number of receives whose buffer is accepted.  What is accepted therefore depends
on how the byte stream is cut into receives: on the standard platform the
messages of s1 and s2 get two acknowledgments when received one by one and none
when received in one buffer, and the message of s1 gets one acknowledgment when
received whole and none when cut after its twentieth character. -/
theorem one_message_per_receive (P : Platform) (client_socket : Nat) (reads : List Recv)
    (s : ServerState) :
    (∀ (buffer : String) (st : ServerState),
      handleBuffer P client_socket buffer st =
        match decode P buffer with
        | some (sensor_id, distance) => acceptReading P client_socket sensor_id distance st
        | none => st) ∧
    (∀ (buffer : String) (st : ServerState),
      (handleBuffer P client_socket buffer st).trace.count (Event.tcpSend client_socket "ACK") ≤
        st.trace.count (Event.tcpSend client_socket "ACK") + 1) ∧
    (∀ (buffer : String) (rest : List Recv) (st : ServerState),
      handleClient P client_socket (Recv.data buffer :: rest) st =
        handleClient P client_socket rest (handleBuffer P client_socket buffer st)) ∧
    (handleClient P client_socket reads s).trace.count (Event.tcpSend client_socket "ACK") =
      s.trace.count (Event.tcpSend client_socket "ACK") +
        ((received reads).filter (fun buffer => (decode P buffer).isSome)).length ∧
    (handleClient stdPlatform 7 [Recv.data msgS1, Recv.data msgS2]
        (ProximityServer true "")).trace.count (Event.tcpSend 7 "ACK") = 2 ∧
    (handleClient stdPlatform 7 [Recv.data (msgS1 ++ msgS2)]
        (ProximityServer true "")).trace.count (Event.tcpSend 7 "ACK") = 0 ∧
    (handleClient stdPlatform 7 [Recv.data (msgS1Head ++ msgS1Tail)]
        (ProximityServer true "")).trace.count (Event.tcpSend 7 "ACK") = 1 ∧
    (handleClient stdPlatform 7 [Recv.data msgS1Head, Recv.data msgS1Tail]
        (ProximityServer true "")).trace.count (Event.tcpSend 7 "ACK") = 0 := by
  have hb : ∀ (buffer : String) (st : ServerState),
      handleBuffer P client_socket buffer st =
        match decode P buffer with
        | some (sensor_id, distance) => acceptReading P client_socket sensor_id distance st
        | none => st := by
    intro buffer st
    cases hd : decode P buffer with
    | none => exact handleBuffer_of_decode_none P client_socket buffer st hd
    | some p =>
      obtain ⟨id, d⟩ := p
      exact handleBuffer_of_decode_some P client_socket buffer st hd
  refine ⟨hb, ?_, fun _ _ _ => rfl, ?_, by decide!, by decide!, by decide!, by decide!⟩
  · intro buffer st
    rw [hb]
    cases hd : decode P buffer with
    | none => simp
    | some p =>
      obtain ⟨id, d⟩ := p
      simp only
      rw [count_ack_acceptReading]
  · induction reads generalizing s with
    | nil => simp [handleClient, received]
    | cons r rest ih =>
      cases r with
      | closed => simp [handleClient, received, List.count_append]
      | data buffer =>
        simp only [handleClient, received]
        rw [ih, hb]
        cases hd : decode P buffer with
        | none => simp [hd]
        | some p =>
          obtain ⟨id, d⟩ := p
          simp only [List.filter_cons, hd, Option.isSome_some, if_true, List.length_cons]
          rw [count_ack_acceptReading]
          omega

/-! ## The persistence file across restarts -/

theorem header_append_ne_empty (t : String) : header ++ t ≠ "" := by
  intro h
  have h2 := congrArg String.length h
  rw [String.length_append] at h2
  have h3 : header.length = 36 := by decide
  have h4 : ("" : String).length = 0 := rfl
  omega

theorem dbInv_init : DbInv (ProximityServer true "") := by
  simp [DbInv, ProximityServer]

theorem broadcastSensorData_db (s : ServerState) :
    (broadcastSensorData s).db_open = s.db_open ∧
    (broadcastSensorData s).db_good = s.db_good ∧
    (broadcastSensorData s).db_disk = s.db_disk ∧
    (broadcastSensorData s).db_buffer = s.db_buffer := by
  rw [broadcastSensorData_eq]
  exact ⟨rfl, rfl, rfl, rfl⟩

theorem dbInv_fresh (disk : String) (records : List String)
    (hrec : ∀ r ∈ records, NoNewline r ∧ r ≠ headerLine)
    (hdisk : disk = header ++ unlines records) : DbInv (ProximityServer true disk) := by
  have hne : disk ≠ "" := hdisk ▸ header_append_ne_empty _
  refine ⟨rfl, rfl, Or.inr ⟨?_, records, hrec, hdisk⟩⟩
  simp [ProximityServer, hne]

theorem dbInv_step (P : Platform) (a : Step) (s : ServerState)
    (hwrite : ∀ n, P.diskFails n = none) (hnow : ∀ n, NoNewline (P.now n))
    (hfloat : ∀ d, NoNewline (P.showFloat d))
    (hid : ∀ sock buffer id d, a = Step.recv sock buffer → decode P buffer = some (id, d) →
      NoNewline id)
    (ha : a.opens = true) (hs : DbInv s) : DbInv (step P a s) := by
  obtain ⟨ho, hg, hdb⟩ := hs
  cases a with
  | recv sock buffer =>
    simp only [step]
    cases hd : decode P buffer with
    | none =>
      rw [handleBuffer_of_decode_none P sock buffer s hd]
      exact ⟨ho, hg, hdb⟩
    | some p =>
      obtain ⟨id, d⟩ := p
      rw [handleBuffer_of_decode_some P sock buffer s hd,
        acceptReading_ok P sock id d s ho hg (hwrite _)]
      have hr : NoNewline
          (dbRecord (P.now (s.clock + 1)) id (P.showFloat d) (calculateStatus d)) ∧
          dbRecord (P.now (s.clock + 1)) id (P.showFloat d) (calculateStatus d) ≠ headerLine :=
        ⟨noNewline_dbRecord _ _ _ d (hnow _) (hid sock buffer id d rfl hd) (hfloat _),
          dbRecord_ne_headerLine _ _ _ d⟩
      have hrecord : recordOf P id d s =
          dbRecord (P.now (s.clock + 1)) id (P.showFloat d) (calculateStatus d) ++ "\n" := rfl
      refine ⟨rfl, rfl, Or.inr ⟨rfl, ?_⟩⟩
      rcases hdb with ⟨h1, h2⟩ | ⟨h1, records, h2, h3⟩
      · refine ⟨[dbRecord (P.now (s.clock + 1)) id (P.showFloat d) (calculateStatus d)],
          ?_, ?_⟩
        · intro r hr'
          rw [List.mem_singleton.mp hr']
          exact hr
        · show s.db_disk ++ (s.db_buffer ++ recordOf P id d s) = _
          rw [h1, h2, hrecord]
          simp [unlines]
      · refine ⟨records ++
          [dbRecord (P.now (s.clock + 1)) id (P.showFloat d) (calculateStatus d)], ?_, ?_⟩
        · intro r hr'
          rcases List.mem_append.mp hr' with hr' | hr'
          · exact h2 r hr'
          · rw [List.mem_singleton.mp hr']
            exact hr
        · show s.db_disk ++ (s.db_buffer ++ recordOf P id d s) = _
          rw [h1, h3, hrecord, unlines_append]
          simp [unlines, String.append_assoc]
  | wsOpen c =>
    simp only [step, wsConnect, on_open, DbInv]
    obtain ⟨e1, e2, e3, e4⟩ :=
      broadcastSensorData_db { s with connections := s.connections ++ [c] }
    rw [e1, e2, e3, e4]
    exact ⟨ho, hg, hdb⟩
  | wsMessage =>
    simp only [step, on_message, DbInv]
    obtain ⟨e1, e2, e3, e4⟩ := broadcastSensorData_db s
    rw [e1, e2, e3, e4]
    exact ⟨ho, hg, hdb⟩
  | restart clean openOk =>
    simp only [Step.opens] at ha
    subst ha
    simp only [step]
    rcases hdb with ⟨h1, h2⟩ | ⟨h1, records, h2, h3⟩
    · cases clean
      · simp only [Bool.false_eq_true, false_and, if_false, h1]
        exact dbInv_init
      · have hd : (writeOut P s).db_disk = header ++ unlines [] := by
          simp [writeOut, hwrite, h1, h2, unlines]
        simp only [ho, and_self, if_true]
        exact dbInv_fresh _ [] (by simp) hd
    · cases clean
      · simp only [Bool.false_eq_true, false_and, if_false]
        exact dbInv_fresh _ records h2 h3
      · have hd : (writeOut P s).db_disk = header ++ unlines records := by
          simp [writeOut, hwrite, h1, h3]
        simp only [ho, and_self, if_true]
        exact dbInv_fresh _ records h2 hd

theorem dbInv_run (P : Platform) (steps : List Step) (s : ServerState)
    (hwrite : ∀ n, P.diskFails n = none) (hnow : ∀ n, NoNewline (P.now n))
    (hfloat : ∀ d, NoNewline (P.showFloat d))
    (hid : ∀ sock buffer id d, Step.recv sock buffer ∈ steps →
      decode P buffer = some (id, d) → NoNewline id)
    (hopen : ∀ a ∈ steps, a.opens = true) (hs : DbInv s) : DbInv (run P steps s) := by
  induction steps generalizing s with
  | nil => exact hs
  | cons a rest ih =>
    simp only [run, List.foldl_cons]
    refine ih (step P a s)
      (fun sock buffer id d hm => hid sock buffer id d (List.mem_cons_of_mem a hm))
      (fun b hb => hopen b (List.mem_cons_of_mem a hb))
      (dbInv_step P a s hwrite hnow hfloat ?_ (hopen a (List.mem_cons_self a rest)) hs)
    intro sock buffer id d ha hd
    exact hid sock buffer id d (ha ▸ List.mem_cons_self a rest) hd

theorem db_disk_append_step (P : Platform) (a : Step) (s : ServerState) :
    ∃ t : String, (step P a s).db_disk = s.db_disk ++ t := by
  cases a with
  | recv sock buffer =>
    simp only [step]
    cases hd : decode P buffer with
    | none =>
      rw [handleBuffer_of_decode_none P sock buffer s hd]
      exact ⟨"", by simp⟩
    | some p =>
      obtain ⟨id, d⟩ := p
      rw [handleBuffer_of_decode_some P sock buffer s hd]
      by_cases hidle : s.db_open = false ∨ s.db_good = false
      · exact ⟨"", by simp [(acceptReading_db_idle P sock id d s hidle).2.2.1]⟩
      · have ho : s.db_open = true := by
          cases h : s.db_open
          · exact absurd (Or.inl h) hidle
          · rfl
        have hg : s.db_good = true := by
          cases h : s.db_good
          · exact absurd (Or.inr h) hidle
          · rfl
        cases hw : P.diskFails s.db_writes with
        | none =>
          rw [acceptReading_ok P sock id d s ho hg hw]
          exact ⟨_, rfl⟩
        | some k => exact ⟨_, (acceptReading_db_fail P sock id d s ho hg k hw).2.2.1⟩
  | wsOpen c =>
    simp only [step, wsConnect, on_open]
    exact ⟨"", by rw [(broadcastSensorData_db _).2.2.1]; simp⟩
  | wsMessage =>
    simp only [step, on_message]
    exact ⟨"", by rw [(broadcastSensorData_db _).2.2.1]; simp⟩
  | restart clean openOk =>
    simp only [step, ProximityServer]
    by_cases hc : clean = true ∧ s.db_open = true
    · rw [if_pos hc]
      cases hw : P.diskFails s.db_writes with
      | none => exact ⟨s.db_buffer, by simp [writeOut, hw]⟩
      | some k => exact ⟨s.db_buffer.take k, by simp [writeOut, hw]⟩
    · rw [if_neg hc]
      exact ⟨"", by simp⟩

/-- C8, counterexample: a fresh server on an empty file accepts a valid message
whose sensor identifier contains the header between two line breaks; the
identifier is written as it is, and the file then holds the header line twice.
When the first write fails after seven characters and the process is restarted,
the file is not empty, no header is written again, and the next record follows
the broken header on the same line; and a restart that cannot open the empty
file leaves it empty. -/
theorem header_repeated_by_sensor_id :
    decode stdPlatform msgHeaderId = some (headerId, 5) ∧
    textLines (run stdPlatform [Step.recv 7 msgHeaderId] (ProximityServer true "")).db_disk =
      [headerLine, "2025-06-01 12:00:01,A", headerLine, "B,5,CRITICAL"] ∧
    (textLines
      (run stdPlatform [Step.recv 7 msgHeaderId] (ProximityServer true "")).db_disk).count
        headerLine = 2 ∧
    (run shortDiskPlatform [Step.recv 7 msgS1] (ProximityServer true "")).db_disk =
      "timesta" ∧
    (run shortDiskPlatform [Step.recv 7 msgS1, Step.restart false true]
        (ProximityServer true "")).db_buffer = "" ∧
    textLines
        (run shortDiskPlatform [Step.recv 7 msgS1, Step.restart false true, Step.recv 7 msgS2]
          (ProximityServer true "")).db_disk =
      ["timesta2025-06"] ∧
    (run stdPlatform [Step.restart false false, Step.recv 7 msgS1]
        (ProximityServer true "")).db_disk ++
      (run stdPlatform [Step.restart false false, Step.recv 7 msgS1]
        (ProximityServer true "")).db_buffer = "" := by
  decide!

/-- C8, amended: a server constructed on an empty persistence file writes the
header line `timestamp,sensor_id,distance,status` first; a server constructed on
a non-empty file leaves it as it is and adds no header; hence, starting from an
empty file, after any sequence of handled buffers, subscriber events and
restarts (with or without a final flush) in which the file can be opened, every
write succeeds and no accepted sensor identifier contains a line break
(timestamps and rendered distances never do), the lines of the file with its
stream buffer are the header line followed by lines that are not the header, so
the header occurs exactly once and is the first line, and the file on disk is
empty or starts with the header line; and on every platform no step modifies or
removes text that is already on disk. -/
theorem header_written_once (P : Platform) (steps : List Step)
    (hopen : ∀ a ∈ steps, a.opens = true)
    (hwrite : ∀ n, P.diskFails n = none)
    (hnow : ∀ n, NoNewline (P.now n))
    (hfloat : ∀ d, NoNewline (P.showFloat d))
    (hid : ∀ sock buffer id d, Step.recv sock buffer ∈ steps →
      decode P buffer = some (id, d) → NoNewline id) :
    (ProximityServer true "").db_disk ++ (ProximityServer true "").db_buffer = header ∧
    (∀ (openOk : Bool) (disk : String), disk ≠ "" →
      (ProximityServer openOk disk).db_disk = disk ∧
      (ProximityServer openOk disk).db_buffer = "") ∧
    (∃ records,
      textLines ((run P steps (ProximityServer true "")).db_disk ++
          (run P steps (ProximityServer true "")).db_buffer) = headerLine :: records ∧
      headerLine ∉ records) ∧
    (textLines ((run P steps (ProximityServer true "")).db_disk ++
        (run P steps (ProximityServer true "")).db_buffer)).count headerLine = 1 ∧
    ((run P steps (ProximityServer true "")).db_disk = "" ∨
      (textLines (run P steps (ProximityServer true "")).db_disk).head? = some headerLine) ∧
    (∀ (Q : Platform) (s : ServerState) (a : Step),
      ∃ t : String, (step Q a s).db_disk = s.db_disk ++ t) := by
  have hinv := dbInv_run P steps (ProximityServer true "") hwrite hnow hfloat hid hopen
    dbInv_init
  obtain ⟨_, _, hdb⟩ := hinv
  have hhl : NoNewline headerLine := by decide
  have hlines : ∀ records : List String, (∀ r ∈ records, NoNewline r ∧ r ≠ headerLine) →
      textLines (header ++ unlines records) = headerLine :: records := by
    intro records hr
    have : header ++ unlines records = unlines (headerLine :: records) := by
      rw [header_eq]
      rfl
    rw [this]
    apply textLines_unlines
    intro l hl
    rcases List.mem_cons.mp hl with hl | hl
    · rw [hl]
      exact hhl
    · exact (hr l hl).1
  have hrec : ∃ records,
      textLines ((run P steps (ProximityServer true "")).db_disk ++
          (run P steps (ProximityServer true "")).db_buffer) = headerLine :: records ∧
      headerLine ∉ records := by
    rcases hdb with ⟨h1, h2⟩ | ⟨h1, records, h2, h3⟩
    · refine ⟨[], ?_, by simp⟩
      rw [h1, h2]
      simpa [unlines] using hlines [] (by simp)
    · refine ⟨records, ?_, fun hm => (h2 _ hm).2 rfl⟩
      rw [h1, h3]
      simpa using hlines records h2
  refine ⟨by simp [ProximityServer], ?_, hrec, ?_, ?_, fun Q s a => db_disk_append_step Q a s⟩
  · intro openOk disk hne
    simp [ProximityServer, hne]
  · obtain ⟨records, h1, h2⟩ := hrec
    rw [h1, List.count_cons_self, List.count_eq_zero.mpr h2]
  · rcases hdb with ⟨h1, _⟩ | ⟨_, records, h2, h3⟩
    · exact Or.inl h1
    · exact Or.inr (by rw [h3, hlines records h2]; rfl)

/-- Witness for the amended C8: on the standard platform, a reading, a restart
that loses the buffer, a reading, a restart after a clean close, a subscriber and
a reading. -/
theorem header_written_once_witness :
    textLines (run stdPlatform
        [Step.recv 7 msgS1, Step.restart false true, Step.recv 7 msgS2,
          Step.restart true true, Step.wsOpen 3, Step.recv 8 msgS1]
        (ProximityServer true "")).db_disk =
      [headerLine, "2025-06-01 12:00:01,s1,5,CRITICAL", "2025-06-01 12:00:01,s2,60,SAFE",
        "2025-06-01 12:00:01,s1,5,CRITICAL"] ∧
    (textLines ((run stdPlatform
        [Step.recv 7 msgS1, Step.restart false true, Step.recv 7 msgS2,
          Step.restart true true, Step.wsOpen 3, Step.recv 8 msgS1]
        (ProximityServer true "")).db_disk ++
      (run stdPlatform
        [Step.recv 7 msgS1, Step.restart false true, Step.recv 7 msgS2,
          Step.restart true true, Step.wsOpen 3, Step.recv 8 msgS1]
        (ProximityServer true "")).db_buffer)).count headerLine = 1 := by
  refine ⟨by decide!,
    (header_written_once stdPlatform
      [Step.recv 7 msgS1, Step.restart false true, Step.recv 7 msgS2,
        Step.restart true true, Step.wsOpen 3, Step.recv 8 msgS1]
      (by decide) (fun _ => rfl) noNewline_tickingClock noNewline_ostreamFloat ?_).2.2.2.1⟩
  intro sock buffer id d hm hd
  have h1 : decode stdPlatform msgS1 = some ("s1", 5) := by decide!
  have h2 : decode stdPlatform msgS2 = some ("s2", 60) := by decide!
  simp only [List.mem_cons, Step.recv.injEq, List.mem_singleton, reduceCtorEq, false_or,
    or_false, List.not_mem_nil] at hm
  rcases hm with ⟨_, rfl⟩ | ⟨_, rfl⟩ | ⟨_, rfl⟩
  · rw [h1] at hd
    cases hd
    decide
  · rw [h2] at hd
    cases hd
    decide
  · rw [h1] at hd
    cases hd
    decide

end ProximitySensor
